import Mathlib

/-!
# WebGPU bind-group-entry marshalling

A shallow embedding of `Source/WebKit/Shared/WebGPU/WebGPUBindGroupEntry.cpp`:
the two converters between the local `WebCore::WebGPU::BindGroupEntry` and the
transferable `WebKit::WebGPU::BindGroupEntry`.

Both converters are member functions of a context class whose per-object
operations are virtual.  A context is therefore embedded as a record of
operations over an explicit registry state, and every converter threads that
state: an operation receives the state before the call and returns its result
together with the state after the call.
-/

set_option autoImplicit false

namespace WebCore.WebGPU

/-- A `WebCore::WebGPU::Sampler` object, named by its identity. -/
structure Sampler where
  object : Nat
deriving DecidableEq, Repr

/-- A `WebCore::WebGPU::TextureView` object, named by its identity. -/
structure TextureView where
  object : Nat
deriving DecidableEq, Repr

/-- A `WebCore::WebGPU::Buffer` object, named by its identity. -/
structure Buffer where
  object : Nat
deriving DecidableEq, Repr

/-- A `WebCore::WebGPU::ExternalTexture` object, named by its identity. -/
structure ExternalTexture where
  object : Nat
deriving DecidableEq, Repr

/-- `WebCore::WebGPU::Index32` (a `uint32_t`); the converters only copy it. -/
abbrev Index32 := Nat

/-- `WebCore::WebGPU::Size64` (a `uint64_t`); the converters only copy it. -/
abbrev Size64 := Nat

/-- `WebCore::WebGPU::BufferBinding`: a buffer reference with a byte offset and
an optional byte size. -/
structure BufferBinding where
  buffer : Buffer
  offset : Size64
  size : Option Size64
deriving DecidableEq, Repr

/-- `WebCore::WebGPU::BindingResource`, the variant that `WTF::switchOn`
dispatches on in `convertToBacking`; the alternatives are in the order of the
four lambdas there. -/
inductive BindingResource where
  | sampler (sampler : Sampler)
  | textureView (textureView : TextureView)
  | bufferBinding (bufferBinding : BufferBinding)
  | externalTexture (externalTexture : ExternalTexture)
deriving DecidableEq, Repr

/-- `WebCore::WebGPU::BindGroupEntry`, built in `convertFromBacking` as
`{ binding, { resource } }`. -/
structure BindGroupEntry where
  binding : Index32
  resource : BindingResource
deriving DecidableEq, Repr

end WebCore.WebGPU

namespace WebKit.WebGPU

/-- `WebKit::WebGPUIdentifier`, the value that crosses the process boundary. -/
abbrev WebGPUIdentifier := Nat

/-- `WebKit::WebGPU::BufferBinding`, the transferable buffer binding.  The
converter builds it as `{ identifier }` for the three single-identifier kinds,
which sets `buffer` and leaves the other members at their defaults. -/
structure BufferBinding where
  buffer : WebGPUIdentifier
  offset : WebCore.WebGPU.Size64 := 0
  size : Option WebCore.WebGPU.Size64 := none
deriving DecidableEq, Repr

/-- `WebKit::WebGPU::BindingResourceType`, an `enum class` over `uint8_t`,
carried as its underlying value: a received record can hold a value that is
none of the four enumerators. -/
structure BindingResourceType where
  raw : Nat
deriving DecidableEq, Repr

namespace BindingResourceType

/-- `BindingResourceType::Sampler`. -/
def Sampler : BindingResourceType := ⟨0⟩

/-- `BindingResourceType::TextureView`. -/
def TextureView : BindingResourceType := ⟨1⟩

/-- `BindingResourceType::BufferBinding`. -/
def BufferBinding : BindingResourceType := ⟨2⟩

/-- `BindingResourceType::ExternalTexture`. -/
def ExternalTexture : BindingResourceType := ⟨3⟩

/-- The tag is one of the four enumerators. -/
def isEnumerator (type : BindingResourceType) : Prop :=
  type = Sampler ∨ type = TextureView ∨ type = BufferBinding ∨ type = ExternalTexture

instance (type : BindingResourceType) : Decidable type.isEnumerator := by
  unfold isEnumerator
  infer_instance

end BindingResourceType

/-- `WebKit::WebGPU::BindGroupEntry`, the transferable entry.  The members are
in the order of the braced initialisers in `convertToBacking`:
`{ binding, bufferBinding, identifier, type }`. -/
structure BindGroupEntry where
  binding : WebCore.WebGPU.Index32
  bufferBinding : BufferBinding
  identifier : WebGPUIdentifier
  type : BindingResourceType
deriving DecidableEq, Repr

/-- `WebKit::WebGPU::ConvertToBackingContext`: the per-object `convertToBacking`
overloads that the entry converter calls.  Each may register the object, so each
returns the registry state after the call.  The three overloads called in
`WebGPUBindGroupEntry.cpp` return an identifier; the buffer overload is the one
the buffer-binding conversion uses, which can fail. -/
structure ConvertToBackingContext (σ : Type) where
  convertSamplerToBacking : WebCore.WebGPU.Sampler → σ → WebGPUIdentifier × σ
  convertTextureViewToBacking : WebCore.WebGPU.TextureView → σ → WebGPUIdentifier × σ
  convertBufferToBacking : WebCore.WebGPU.Buffer → σ → Option WebGPUIdentifier × σ
  convertExternalTextureToBacking : WebCore.WebGPU.ExternalTexture → σ → WebGPUIdentifier × σ

/-- `WebKit::WebGPU::ConvertFromBackingContext`: the per-object lookups
`convertSamplerFromBacking`, `convertTextureViewFromBacking`,
`convertBufferFromBacking` and `convertExternalTextureFromBacking`.  A null
`WeakPtr` is `none`.  The lookups are non-const member functions, so each
returns the registry state after the call. -/
structure ConvertFromBackingContext (ρ : Type) where
  convertSamplerFromBacking : WebGPUIdentifier → ρ → Option WebCore.WebGPU.Sampler × ρ
  convertTextureViewFromBacking : WebGPUIdentifier → ρ → Option WebCore.WebGPU.TextureView × ρ
  convertBufferFromBacking : WebGPUIdentifier → ρ → Option WebCore.WebGPU.Buffer × ρ
  convertExternalTextureFromBacking :
    WebGPUIdentifier → ρ → Option WebCore.WebGPU.ExternalTexture × ρ

/-- Modelled from the spec: `ConvertToBackingContext::convertToBacking` for a
`WebCore::WebGPU::BufferBinding`, which `WebGPUBindGroupEntry.cpp` calls and
`WebGPUBufferBinding.cpp` defines.  The spec: "convert the nested buffer binding
first; this sub-conversion can itself fail (e.g., the buffer has no valid
identifier)"; offset and size are plain numeric values. -/
def ConvertToBackingContext.convertBufferBindingToBacking {σ : Type}
    (ctx : ConvertToBackingContext σ) (bufferBinding : WebCore.WebGPU.BufferBinding) (s : σ) :
    Option BufferBinding × σ :=
  match ctx.convertBufferToBacking bufferBinding.buffer s with
  | (none, s') => (none, s')
  | (some buffer, s') =>
    (some { buffer := buffer, offset := bufferBinding.offset, size := bufferBinding.size }, s')

/-- Modelled from the spec: `ConvertFromBackingContext::convertFromBacking` for a
`WebKit::WebGPU::BufferBinding`, which `WebGPUBindGroupEntry.cpp` calls and
`WebGPUBufferBinding.cpp` defines.  The spec: "resolve the nested buffer
identifier the same way; if resolution succeeds, carry offset/size through
unchanged; if it fails, the whole entry fails". -/
def ConvertFromBackingContext.convertBufferBindingFromBacking {ρ : Type}
    (ctx : ConvertFromBackingContext ρ) (bufferBinding : BufferBinding) (t : ρ) :
    Option WebCore.WebGPU.BufferBinding × ρ :=
  match ctx.convertBufferFromBacking bufferBinding.buffer t with
  | (none, t') => (none, t')
  | (some buffer, t') =>
    (some { buffer := buffer, offset := bufferBinding.offset, size := bufferBinding.size }, t')

/-- `ConvertToBackingContext::convertToBacking(const WebCore::WebGPU::BindGroupEntry&)`
(`WebGPUBindGroupEntry.cpp`, lines 40-61). -/
def ConvertToBackingContext.convertToBacking {σ : Type} (ctx : ConvertToBackingContext σ)
    (bindGroupEntry : WebCore.WebGPU.BindGroupEntry) (s : σ) : Option BindGroupEntry × σ :=
  match bindGroupEntry.resource with
  | .sampler sampler =>
    match ctx.convertSamplerToBacking sampler s with
    | (identifier, s') =>
      (some { binding := bindGroupEntry.binding, bufferBinding := { buffer := identifier },
              identifier := identifier, type := BindingResourceType.Sampler }, s')
  | .textureView textureView =>
    match ctx.convertTextureViewToBacking textureView s with
    | (identifier, s') =>
      (some { binding := bindGroupEntry.binding, bufferBinding := { buffer := identifier },
              identifier := identifier, type := BindingResourceType.TextureView }, s')
  | .bufferBinding bufferBinding =>
    match ctx.convertBufferBindingToBacking bufferBinding s with
    | (none, s') => (none, s')
    | (some convertedBufferBinding, s') =>
      (some { binding := bindGroupEntry.binding, bufferBinding := convertedBufferBinding,
              identifier := convertedBufferBinding.buffer,
              type := BindingResourceType.BufferBinding }, s')
  | .externalTexture externalTexture =>
    match ctx.convertExternalTextureToBacking externalTexture s with
    | (identifier, s') =>
      (some { binding := bindGroupEntry.binding, bufferBinding := { buffer := identifier },
              identifier := identifier, type := BindingResourceType.ExternalTexture }, s')

/-- The way `convertFromBacking` can end without returning. -/
inductive Fatal where
  | releaseAssertNotReached
deriving DecidableEq, Repr

/-- `ConvertFromBackingContext::convertFromBacking(const BindGroupEntry&)`
(`WebGPUBindGroupEntry.cpp`, lines 63-93).  The `switch` compares the tag with
the four enumerators; a tag that matches none falls out of the `switch` to
`RELEASE_ASSERT_NOT_REACHED()`. -/
def ConvertFromBackingContext.convertFromBacking {ρ : Type} (ctx : ConvertFromBackingContext ρ)
    (bindGroupEntry : BindGroupEntry) (t : ρ) :
    Except Fatal (Option WebCore.WebGPU.BindGroupEntry × ρ) :=
  if bindGroupEntry.type = BindingResourceType.Sampler then
    match ctx.convertSamplerFromBacking bindGroupEntry.identifier t with
    | (none, t') => .ok (none, t')
    | (some sampler, t') =>
      .ok (some { binding := bindGroupEntry.binding, resource := .sampler sampler }, t')
  else if bindGroupEntry.type = BindingResourceType.TextureView then
    match ctx.convertTextureViewFromBacking bindGroupEntry.identifier t with
    | (none, t') => .ok (none, t')
    | (some textureView, t') =>
      .ok (some { binding := bindGroupEntry.binding, resource := .textureView textureView }, t')
  else if bindGroupEntry.type = BindingResourceType.BufferBinding then
    match ctx.convertBufferBindingFromBacking bindGroupEntry.bufferBinding t with
    | (none, t') => .ok (none, t')
    | (some bufferBinding, t') =>
      .ok (some { binding := bindGroupEntry.binding, resource := .bufferBinding bufferBinding }, t')
  else if bindGroupEntry.type = BindingResourceType.ExternalTexture then
    match ctx.convertExternalTextureFromBacking bindGroupEntry.identifier t with
    | (none, t') => .ok (none, t')
    | (some externalTexture, t') =>
      .ok (some { binding := bindGroupEntry.binding,
                  resource := .externalTexture externalTexture }, t')
  else
    .error Fatal.releaseAssertNotReached

/-! ## The identifier registry

The registry behind the two contexts is not part of `WebGPUBindGroupEntry.cpp`.
The definitions of this section follow the registry contract of the
specification and give the contexts a concrete instance to evaluate. -/

/-- The identifier a handle table holds for an object: the first row with that
object. -/
def identifierOf {α : Type} [DecidableEq α] :
    List (WebGPUIdentifier × α) → α → Option WebGPUIdentifier
  | [], _ => none
  | (identifier, held) :: rest, object =>
    if held = object then some identifier else identifierOf rest object

/-- The object a handle table holds under an identifier: the first row with that
identifier. -/
def lookup {α : Type} : List (WebGPUIdentifier × α) → WebGPUIdentifier → Option α
  | [], _ => none
  | (key, held) :: rest, identifier =>
    if key = identifier then some held else lookup rest identifier

/-- Modelled from the spec: the Identifier Registry, which the repository's
sources use but do not contain.  The spec: "the registry owns a table from
identifier to object slot; lookups return an optional live reference";
identifiers are "process-wide unique, minted by the registry, and become
permanently invalid once the owning object is destroyed". -/
structure ObjectRegistry where
  samplers : List (WebGPUIdentifier × WebCore.WebGPU.Sampler)
  textureViews : List (WebGPUIdentifier × WebCore.WebGPU.TextureView)
  buffers : List (WebGPUIdentifier × WebCore.WebGPU.Buffer)
  externalTextures : List (WebGPUIdentifier × WebCore.WebGPU.ExternalTexture)
  nextIdentifier : WebGPUIdentifier
deriving DecidableEq, Repr

namespace ObjectRegistry

/-- A registry that holds no object. -/
def empty : ObjectRegistry :=
  { samplers := [], textureViews := [], buffers := [], externalTextures := [],
    nextIdentifier := 1 }

/-- Modelled from the spec: `register(object) -> Identifier` for a sampler,
"registering a new identifier if the object has none yet". -/
def registerSampler (registry : ObjectRegistry) (sampler : WebCore.WebGPU.Sampler) :
    WebGPUIdentifier × ObjectRegistry :=
  match identifierOf registry.samplers sampler with
  | some identifier => (identifier, registry)
  | none =>
    (registry.nextIdentifier,
      { registry with
        samplers := (registry.nextIdentifier, sampler) :: registry.samplers,
        nextIdentifier := registry.nextIdentifier + 1 })

/-- Modelled from the spec: `register(object) -> Identifier` for a texture view. -/
def registerTextureView (registry : ObjectRegistry)
    (textureView : WebCore.WebGPU.TextureView) : WebGPUIdentifier × ObjectRegistry :=
  match identifierOf registry.textureViews textureView with
  | some identifier => (identifier, registry)
  | none =>
    (registry.nextIdentifier,
      { registry with
        textureViews := (registry.nextIdentifier, textureView) :: registry.textureViews,
        nextIdentifier := registry.nextIdentifier + 1 })

/-- Modelled from the spec: `register(object) -> Identifier` for a buffer. -/
def registerBuffer (registry : ObjectRegistry) (buffer : WebCore.WebGPU.Buffer) :
    WebGPUIdentifier × ObjectRegistry :=
  match identifierOf registry.buffers buffer with
  | some identifier => (identifier, registry)
  | none =>
    (registry.nextIdentifier,
      { registry with
        buffers := (registry.nextIdentifier, buffer) :: registry.buffers,
        nextIdentifier := registry.nextIdentifier + 1 })

/-- Modelled from the spec: `register(object) -> Identifier` for an external
texture. -/
def registerExternalTexture (registry : ObjectRegistry)
    (externalTexture : WebCore.WebGPU.ExternalTexture) : WebGPUIdentifier × ObjectRegistry :=
  match identifierOf registry.externalTextures externalTexture with
  | some identifier => (identifier, registry)
  | none =>
    (registry.nextIdentifier,
      { registry with
        externalTextures :=
          (registry.nextIdentifier, externalTexture) :: registry.externalTextures,
        nextIdentifier := registry.nextIdentifier + 1 })

/-- Modelled from the spec: destruction of a sampler, after which its identifier
is "permanently invalid". -/
def destroySampler (registry : ObjectRegistry) (sampler : WebCore.WebGPU.Sampler) :
    ObjectRegistry :=
  { registry with samplers := registry.samplers.filter (fun row => row.2 ≠ sampler) }

/-- Modelled from the spec: destruction of a buffer. -/
def destroyBuffer (registry : ObjectRegistry) (buffer : WebCore.WebGPU.Buffer) :
    ObjectRegistry :=
  { registry with buffers := registry.buffers.filter (fun row => row.2 ≠ buffer) }

end ObjectRegistry

/-- Modelled from the spec: the outbound context over the registry.  A sampler,
texture view or external texture is registered on conversion ("obtain/mint
identifier"); a buffer is converted to the identifier it holds, and the
conversion fails when "the buffer has no valid identifier". -/
def registryToBackingContext : ConvertToBackingContext ObjectRegistry where
  convertSamplerToBacking := fun sampler registry => registry.registerSampler sampler
  convertTextureViewToBacking := fun textureView registry =>
    registry.registerTextureView textureView
  convertBufferToBacking := fun buffer registry =>
    (identifierOf registry.buffers buffer, registry)
  convertExternalTextureToBacking := fun externalTexture registry =>
    registry.registerExternalTexture externalTexture

/-- Modelled from the spec: the inbound context over the registry,
`lookup(Identifier) -> optional<ObjectRef>` for each kind of object. -/
def registryFromBackingContext : ConvertFromBackingContext ObjectRegistry where
  convertSamplerFromBacking := fun identifier registry =>
    (lookup registry.samplers identifier, registry)
  convertTextureViewFromBacking := fun identifier registry =>
    (lookup registry.textureViews identifier, registry)
  convertBufferFromBacking := fun identifier registry =>
    (lookup registry.buffers identifier, registry)
  convertExternalTextureFromBacking := fun identifier registry =>
    (lookup registry.externalTextures identifier, registry)

/-- The object an entry references is live for a receiving registry: the
receiving side's lookup of the identifier that the outbound side assigns to the
object returns that object. -/
def referencedObjectLive {σ ρ : Type} (toCtx : ConvertToBackingContext σ)
    (fromCtx : ConvertFromBackingContext ρ) (bindGroupEntry : WebCore.WebGPU.BindGroupEntry)
    (s : σ) (t : ρ) : Prop :=
  match bindGroupEntry.resource with
  | .sampler sampler =>
    (fromCtx.convertSamplerFromBacking (toCtx.convertSamplerToBacking sampler s).1 t).1
      = some sampler
  | .textureView textureView =>
    (fromCtx.convertTextureViewFromBacking
      (toCtx.convertTextureViewToBacking textureView s).1 t).1 = some textureView
  | .bufferBinding bufferBinding =>
    match (toCtx.convertBufferToBacking bufferBinding.buffer s).1 with
    | none => False
    | some identifier =>
      (fromCtx.convertBufferFromBacking identifier t).1 = some bufferBinding.buffer
  | .externalTexture externalTexture =>
    (fromCtx.convertExternalTextureFromBacking
      (toCtx.convertExternalTextureToBacking externalTexture s).1 t).1 = some externalTexture

/-- The four lookups of an inbound context are reads: each returns the registry
state it was called on (the registry contract
`lookup(Identifier) -> optional<ObjectRef>`). -/
def ConvertFromBackingContext.lookupsAreReads {ρ : Type} (ctx : ConvertFromBackingContext ρ) :
    Prop :=
  (∀ identifier t, (ctx.convertSamplerFromBacking identifier t).2 = t) ∧
  (∀ identifier t, (ctx.convertTextureViewFromBacking identifier t).2 = t) ∧
  (∀ identifier t, (ctx.convertBufferFromBacking identifier t).2 = t) ∧
  (∀ identifier t, (ctx.convertExternalTextureFromBacking identifier t).2 = t)

/-- The registries agree on resolved objects: to an object that the receiving
side finds under an identifier, the outbound side assigns that identifier. -/
def registriesConsistent {σ ρ : Type} (toCtx : ConvertToBackingContext σ)
    (fromCtx : ConvertFromBackingContext ρ) (s : σ) (t : ρ) : Prop :=
  (∀ identifier sampler, (fromCtx.convertSamplerFromBacking identifier t).1 = some sampler →
    (toCtx.convertSamplerToBacking sampler s).1 = identifier) ∧
  (∀ identifier textureView,
    (fromCtx.convertTextureViewFromBacking identifier t).1 = some textureView →
    (toCtx.convertTextureViewToBacking textureView s).1 = identifier) ∧
  (∀ identifier buffer, (fromCtx.convertBufferFromBacking identifier t).1 = some buffer →
    (toCtx.convertBufferToBacking buffer s).1 = some identifier) ∧
  (∀ identifier externalTexture,
    (fromCtx.convertExternalTextureFromBacking identifier t).1 = some externalTexture →
    (toCtx.convertExternalTextureToBacking externalTexture s).1 = identifier)

/-- A record has the form `convertToBacking` emits: with the tag `BufferBinding`
its `identifier` is `bufferBinding.buffer`, and with any other tag its
`bufferBinding` is `{ identifier }`. -/
def BindGroupEntry.isEmittedForm (r : BindGroupEntry) : Prop :=
  if r.type = BindingResourceType.BufferBinding then r.identifier = r.bufferBinding.buffer
  else r.bufferBinding = { buffer := r.identifier }

instance (r : BindGroupEntry) : Decidable r.isEmittedForm := by
  unfold BindGroupEntry.isEmittedForm
  infer_instance

/-- The identifier the outbound context gives, on the state `s`, to the object
that a sampler, texture-view or external-texture entry references: the result of
the per-object conversion that `convertToBacking` calls for the entry.  A
buffer-binding entry has none. -/
def ConvertToBackingContext.identifierOfReferencedObject {σ : Type}
    (ctx : ConvertToBackingContext σ) (bindGroupEntry : WebCore.WebGPU.BindGroupEntry)
    (s : σ) : Option WebGPUIdentifier :=
  match bindGroupEntry.resource with
  | .sampler sampler => some (ctx.convertSamplerToBacking sampler s).1
  | .textureView textureView => some (ctx.convertTextureViewToBacking textureView s).1
  | .bufferBinding _ => none
  | .externalTexture externalTexture =>
    some (ctx.convertExternalTextureToBacking externalTexture s).1

/-! ## Concrete inputs -/

/-- Binding slot 3 holding sampler 7. -/
def samplerEntry : WebCore.WebGPU.BindGroupEntry :=
  { binding := 3, resource := .sampler ⟨7⟩ }

/-- Binding slot 5 holding 64 bytes of buffer 9 from byte 16. -/
def bufferEntry : WebCore.WebGPU.BindGroupEntry :=
  { binding := 5, resource := .bufferBinding { buffer := ⟨9⟩, offset := 16, size := some 64 } }

/-- The registry after sampler 7 was registered in the empty registry. -/
def registryWithSampler : ObjectRegistry :=
  (ObjectRegistry.empty.registerSampler ⟨7⟩).2

/-- The registry after buffer 9 was registered in the empty registry. -/
def registryWithBuffer : ObjectRegistry :=
  (ObjectRegistry.empty.registerBuffer ⟨9⟩).2

/-- The record `convertToBacking` returns for `samplerEntry` on the empty
registry. -/
def samplerRecord : BindGroupEntry :=
  { binding := 3, bufferBinding := { buffer := 1 }, identifier := 1,
    type := BindingResourceType.Sampler }

/-- The record `convertToBacking` returns for `bufferEntry` on
`registryWithBuffer`. -/
def bufferRecord : BindGroupEntry :=
  { binding := 5, bufferBinding := { buffer := 1, offset := 16, size := some 64 },
    identifier := 1, type := BindingResourceType.BufferBinding }

/-- Binding slot 3 holding sampler 8. -/
def secondSamplerEntry : WebCore.WebGPU.BindGroupEntry :=
  { binding := 3, resource := .sampler ⟨8⟩ }

/-- The registry after sampler 7 and then sampler 8 were registered in the empty
registry: sampler 7 has identifier 1 and sampler 8 has identifier 2. -/
def registryWithTwoSamplers : ObjectRegistry :=
  (registryWithSampler.registerSampler ⟨8⟩).2

/-- The record `convertToBacking` returns for `secondSamplerEntry` on
`registryWithTwoSamplers`. -/
def secondSamplerRecord : BindGroupEntry :=
  { binding := 3, bufferBinding := { buffer := 2 }, identifier := 2,
    type := BindingResourceType.Sampler }

/-- Binding slot 4 holding texture view 11. -/
def textureViewEntry : WebCore.WebGPU.BindGroupEntry :=
  { binding := 4, resource := .textureView ⟨11⟩ }

/-- Binding slot 6 holding external texture 12. -/
def externalTextureEntry : WebCore.WebGPU.BindGroupEntry :=
  { binding := 6, resource := .externalTexture ⟨12⟩ }

/-- A record with the tag `Sampler` and the identifier of sampler 7 whose
`bufferBinding` holds other values than `convertToBacking` emits. -/
def samplerRecordOtherBufferBinding : BindGroupEntry :=
  { binding := 3, bufferBinding := { buffer := 99, offset := 5, size := some 1 },
    identifier := 1, type := BindingResourceType.Sampler }

/-- A record with the tag `BufferBinding` and the buffer binding of
`bufferRecord` whose `identifier` is not `bufferBinding.buffer`. -/
def bufferRecordOtherIdentifier : BindGroupEntry :=
  { binding := 5, bufferBinding := { buffer := 1, offset := 16, size := some 64 },
    identifier := 42, type := BindingResourceType.BufferBinding }

end WebKit.WebGPU

/-! ## The inspector target controller

A shallow embedding of
`Source/WebKit/WebProcess/Inspector/WebPageInspectorTargetController.cpp`.  The
controller state carries, next to its members, the messages sent through the
page and the calls made on targets, both oldest first. -/

namespace Inspector

/-- `Inspector::InspectorTargetType`, carried as its underlying value. -/
structure InspectorTargetType where
  raw : Nat
deriving DecidableEq, Repr

/-- `Inspector::FrontendChannel::ConnectionType`, carried as its underlying
value. -/
structure ConnectionType where
  raw : Nat
deriving DecidableEq, Repr

/-- An `Inspector::InspectorTarget` object, named by its identity, with what its
`identifier()` and `type()` return. -/
structure InspectorTarget where
  object : Nat
  identifier : String
  type : InspectorTargetType
deriving DecidableEq, Repr

/-- A call the controller makes on a target: `connect(connectionType)`,
`disconnect()` or `sendMessageToTargetBackend(message)`. -/
inductive TargetCall where
  | connect (target : InspectorTarget) (connectionType : ConnectionType)
  | disconnect (target : InspectorTarget)
  | sendMessageToTargetBackend (target : InspectorTarget) (message : String)
deriving DecidableEq, Repr

end Inspector

namespace WebKit

/-- The messages of `Messages::WebPageProxy` that the controller sends. -/
inductive WebPageProxyMessage where
  | CreateInspectorTarget (targetId : String) (type : Inspector.InspectorTargetType)
  | DestroyInspectorTarget (targetId : String)
deriving DecidableEq, Repr

/-- The value the rows of a target map hold for a key: that of the first row with
the key. -/
def valueOfKey : List (String × Inspector.InspectorTarget) → String →
    Option Inspector.InspectorTarget
  | [], _ => none
  | (key, value) :: rest, wanted => if key = wanted then some value else valueOfKey rest wanted

/-- The rows of a target map without those of a key. -/
def withoutKey : List (String × Inspector.InspectorTarget) → String →
    List (String × Inspector.InspectorTarget)
  | [], _ => []
  | (key, value) :: rest, unwanted =>
    if key = unwanted then withoutKey rest unwanted
    else (key, value) :: withoutKey rest unwanted

/-- Modelled from the spec: the "keyed collection" of the inspector target
registry, `HashMap<String, InspectorTarget*> m_targets`, whose implementation is
not among the sources.  `get` gives the value stored under a key or null, `set`
stores a value under a key and replaces the value the key had, `remove` deletes
the entry of a key. -/
structure TargetMap where
  entries : List (String × Inspector.InspectorTarget)
deriving DecidableEq, Repr

namespace TargetMap

/-- The map without entries. -/
def empty : TargetMap := ⟨[]⟩

/-- `HashMap::get`: the target stored under the key, `none` for null. -/
def get (map : TargetMap) (key : String) : Option Inspector.InspectorTarget :=
  valueOfKey map.entries key

/-- `HashMap::remove`. -/
def remove (map : TargetMap) (key : String) : TargetMap :=
  ⟨withoutKey map.entries key⟩

/-- `HashMap::set`. -/
def set (map : TargetMap) (key : String) (value : Inspector.InspectorTarget) : TargetMap :=
  ⟨(key, value) :: (map.remove key).entries⟩

end TargetMap

/-- `WebKit::WebPageInspectorTargetController`: the members `m_pageTarget` and
`m_targets`, the messages sent through `m_page`, and the calls made on
targets. -/
structure WebPageInspectorTargetController where
  m_pageTarget : Inspector.InspectorTarget
  m_targets : TargetMap
  sentMessages : List WebPageProxyMessage
  targetCalls : List Inspector.TargetCall
deriving DecidableEq, Repr

namespace WebPageInspectorTargetController

/-- The constructor (`WebPageInspectorTargetController.cpp`, lines 39-45), given
the page target that `m_pageTarget(page)` builds.  It stores the page target
under its identifier and sends nothing. -/
def create (pageTarget : Inspector.InspectorTarget) : WebPageInspectorTargetController :=
  { m_pageTarget := pageTarget
    m_targets := TargetMap.empty.set pageTarget.identifier pageTarget
    sentMessages := []
    targetCalls := [] }

/-- `addTarget` (lines 54-60).  The `ASSERT_UNUSED` on `isNewEntry` is compiled
out of release builds. -/
def addTarget (controller : WebPageInspectorTargetController)
    (target : Inspector.InspectorTarget) : WebPageInspectorTargetController :=
  { controller with
    m_targets := controller.m_targets.set target.identifier target
    sentMessages := controller.sentMessages ++
      [WebPageProxyMessage.CreateInspectorTarget target.identifier target.type] }

/-- `removeTarget` (lines 62-69).  The `ASSERT_WITH_MESSAGE` on the page
target's identifier is compiled out of release builds. -/
def removeTarget (controller : WebPageInspectorTargetController)
    (target : Inspector.InspectorTarget) : WebPageInspectorTargetController :=
  { controller with
    sentMessages := controller.sentMessages ++
      [WebPageProxyMessage.DestroyInspectorTarget target.identifier]
    m_targets := controller.m_targets.remove target.identifier }

/-- `connectInspector` (lines 71-78). -/
def connectInspector (controller : WebPageInspectorTargetController) (targetId : String)
    (connectionType : Inspector.ConnectionType) : WebPageInspectorTargetController :=
  match controller.m_targets.get targetId with
  | none => controller
  | some target =>
    { controller with
      targetCalls := controller.targetCalls ++
        [Inspector.TargetCall.connect target connectionType] }

/-- `disconnectInspector` (lines 80-87). -/
def disconnectInspector (controller : WebPageInspectorTargetController) (targetId : String) :
    WebPageInspectorTargetController :=
  match controller.m_targets.get targetId with
  | none => controller
  | some target =>
    { controller with
      targetCalls := controller.targetCalls ++ [Inspector.TargetCall.disconnect target] }

/-- `sendMessageToTargetBackend` (lines 89-96). -/
def sendMessageToTargetBackend (controller : WebPageInspectorTargetController)
    (targetId : String) (message : String) : WebPageInspectorTargetController :=
  match controller.m_targets.get targetId with
  | none => controller
  | some target =>
    { controller with
      targetCalls := controller.targetCalls ++
        [Inspector.TargetCall.sendMessageToTargetBackend target message] }

end WebPageInspectorTargetController

/-- A call of `addTarget` or of `removeTarget`. -/
inductive TargetOperation where
  | addTarget (target : Inspector.InspectorTarget)
  | removeTarget (target : Inspector.InspectorTarget)
deriving DecidableEq, Repr

/-- The target a call is made with. -/
def TargetOperation.target : TargetOperation → Inspector.InspectorTarget
  | .addTarget target => target
  | .removeTarget target => target

/-- The controller after one call. -/
def WebPageInspectorTargetController.perform (controller : WebPageInspectorTargetController) :
    TargetOperation → WebPageInspectorTargetController
  | .addTarget target => controller.addTarget target
  | .removeTarget target => controller.removeTarget target

/-- The controller after a sequence of calls, first call first. -/
def WebPageInspectorTargetController.performAll
    (controller : WebPageInspectorTargetController) (operations : List TargetOperation) :
    WebPageInspectorTargetController :=
  operations.foldl WebPageInspectorTargetController.perform controller

/-- The page target of the concrete controller. -/
def pageTarget : Inspector.InspectorTarget :=
  { object := 1, identifier := "page-1", type := ⟨0⟩ }

/-- A worker target. -/
def workerTarget : Inspector.InspectorTarget :=
  { object := 2, identifier := "worker-2", type := ⟨1⟩ }

/-- The controller of `pageTarget` after construction. -/
def pageController : WebPageInspectorTargetController :=
  WebPageInspectorTargetController.create pageTarget

end WebKit

namespace WebKit.WebGPU

/-! ## Theorems -/

/-- C1: round trip.  For an entry of any of the four kinds whose referenced
object is live, `convertToBacking` returns a record, and `convertFromBacking` of
that record returns an entry with the same binding and the same resource: the
same kind, the same object and, for a buffer binding, the same offset and
size. -/
theorem convertFromBacking_convertToBacking_of_live {σ ρ : Type}
    (toCtx : ConvertToBackingContext σ) (fromCtx : ConvertFromBackingContext ρ)
    (e : WebCore.WebGPU.BindGroupEntry) (s : σ) (t : ρ)
    (hLive : referencedObjectLive toCtx fromCtx e s t) :
    ∃ r s', toCtx.convertToBacking e s = (some r, s') ∧
      ∃ e' t', fromCtx.convertFromBacking r t = .ok (some e', t') ∧
        e'.binding = e.binding ∧ e'.resource = e.resource := by
  obtain ⟨binding, resource⟩ := e
  cases resource with
  | sampler x =>
    simp only [referencedObjectLive] at hLive
    rcases hTo : toCtx.convertSamplerToBacking x s with ⟨identifier, s'⟩
    rw [hTo] at hLive
    rcases hFrom : fromCtx.convertSamplerFromBacking identifier t with ⟨found, t'⟩
    rw [hFrom] at hLive
    simp only at hLive
    subst hLive
    simp [ConvertToBackingContext.convertToBacking, hTo,
      ConvertFromBackingContext.convertFromBacking, hFrom]
  | textureView x =>
    simp only [referencedObjectLive] at hLive
    rcases hTo : toCtx.convertTextureViewToBacking x s with ⟨identifier, s'⟩
    rw [hTo] at hLive
    rcases hFrom : fromCtx.convertTextureViewFromBacking identifier t with ⟨found, t'⟩
    rw [hFrom] at hLive
    simp only at hLive
    subst hLive
    simp [ConvertToBackingContext.convertToBacking, hTo,
      ConvertFromBackingContext.convertFromBacking, hFrom, BindingResourceType.TextureView,
      BindingResourceType.Sampler]
  | bufferBinding b =>
    simp only [referencedObjectLive] at hLive
    rcases hTo : toCtx.convertBufferToBacking b.buffer s with ⟨assigned, s'⟩
    rw [hTo] at hLive
    cases assigned with
    | none => simp at hLive
    | some identifier =>
      simp only at hLive
      rcases hFrom : fromCtx.convertBufferFromBacking identifier t with ⟨found, t'⟩
      rw [hFrom] at hLive
      simp only at hLive
      subst hLive
      simp [ConvertToBackingContext.convertToBacking,
        ConvertToBackingContext.convertBufferBindingToBacking, hTo,
        ConvertFromBackingContext.convertFromBacking,
        ConvertFromBackingContext.convertBufferBindingFromBacking, hFrom,
        BindingResourceType.BufferBinding, BindingResourceType.TextureView,
        BindingResourceType.Sampler]
  | externalTexture x =>
    simp only [referencedObjectLive] at hLive
    rcases hTo : toCtx.convertExternalTextureToBacking x s with ⟨identifier, s'⟩
    rw [hTo] at hLive
    rcases hFrom : fromCtx.convertExternalTextureFromBacking identifier t with ⟨found, t'⟩
    rw [hFrom] at hLive
    simp only at hLive
    subst hLive
    simp [ConvertToBackingContext.convertToBacking, hTo,
      ConvertFromBackingContext.convertFromBacking, hFrom,
      BindingResourceType.ExternalTexture, BindingResourceType.BufferBinding,
      BindingResourceType.TextureView, BindingResourceType.Sampler]

/-- C1 at concrete inputs: sampler 7 in slot 3, converted on the empty registry
and resolved on the registry that holds it, and buffer 9 in slot 5, converted and
resolved on the registry that holds it. -/
theorem convertFromBacking_convertToBacking_of_live_witness :
    (referencedObjectLive registryToBackingContext registryFromBackingContext samplerEntry
        ObjectRegistry.empty registryWithSampler ∧
      ∃ r s', registryToBackingContext.convertToBacking samplerEntry ObjectRegistry.empty
          = (some r, s') ∧
        ∃ e' t', registryFromBackingContext.convertFromBacking r registryWithSampler
            = .ok (some e', t') ∧
          e'.binding = samplerEntry.binding ∧ e'.resource = samplerEntry.resource) ∧
    (referencedObjectLive registryToBackingContext registryFromBackingContext bufferEntry
        registryWithBuffer registryWithBuffer ∧
      ∃ r s', registryToBackingContext.convertToBacking bufferEntry registryWithBuffer
          = (some r, s') ∧
        ∃ e' t', registryFromBackingContext.convertFromBacking r registryWithBuffer
            = .ok (some e', t') ∧
          e'.binding = bufferEntry.binding ∧ e'.resource = bufferEntry.resource) :=
  ⟨⟨rfl, convertFromBacking_convertToBacking_of_live registryToBackingContext
      registryFromBackingContext samplerEntry ObjectRegistry.empty registryWithSampler rfl⟩,
   ⟨rfl, convertFromBacking_convertToBacking_of_live registryToBackingContext
      registryFromBackingContext bufferEntry registryWithBuffer registryWithBuffer rfl⟩⟩

/-- C2: fail-closed resolution.  For a record with one of the four tags,
`convertFromBacking` returns, and it returns no value exactly when the lookup
selected by the tag fails: the sampler, texture-view or external-texture lookup
of `identifier`, or the nested conversion of `bufferBinding`.  When that lookup
fails no entry is returned. -/
theorem convertFromBacking_none_iff_lookup_fails {ρ : Type}
    (ctx : ConvertFromBackingContext ρ) (r : BindGroupEntry) (t : ρ)
    (hTag : r.type.isEnumerator) :
    ∃ v t', ctx.convertFromBacking r t = .ok (v, t') ∧
      (v = none ↔
        (r.type = BindingResourceType.Sampler ∧
          (ctx.convertSamplerFromBacking r.identifier t).1 = none) ∨
        (r.type = BindingResourceType.TextureView ∧
          (ctx.convertTextureViewFromBacking r.identifier t).1 = none) ∨
        (r.type = BindingResourceType.BufferBinding ∧
          (ctx.convertBufferBindingFromBacking r.bufferBinding t).1 = none) ∨
        (r.type = BindingResourceType.ExternalTexture ∧
          (ctx.convertExternalTextureFromBacking r.identifier t).1 = none)) := by
  obtain ⟨binding, bufferBinding, identifier, type⟩ := r
  simp only at hTag ⊢
  rcases hTag with h | h | h | h
  · subst h
    rcases hFrom : ctx.convertSamplerFromBacking identifier t with ⟨found, t'⟩
    cases found <;>
      simp [ConvertFromBackingContext.convertFromBacking, hFrom, BindingResourceType.Sampler,
        BindingResourceType.TextureView, BindingResourceType.BufferBinding,
        BindingResourceType.ExternalTexture]
  · subst h
    rcases hFrom : ctx.convertTextureViewFromBacking identifier t with ⟨found, t'⟩
    cases found <;>
      simp [ConvertFromBackingContext.convertFromBacking, hFrom, BindingResourceType.Sampler,
        BindingResourceType.TextureView, BindingResourceType.BufferBinding,
        BindingResourceType.ExternalTexture]
  · subst h
    rcases hFrom : ctx.convertBufferBindingFromBacking bufferBinding t with ⟨found, t'⟩
    cases found <;>
      simp [ConvertFromBackingContext.convertFromBacking, hFrom, BindingResourceType.Sampler,
        BindingResourceType.TextureView, BindingResourceType.BufferBinding,
        BindingResourceType.ExternalTexture]
  · subst h
    rcases hFrom : ctx.convertExternalTextureFromBacking identifier t with ⟨found, t'⟩
    cases found <;>
      simp [ConvertFromBackingContext.convertFromBacking, hFrom, BindingResourceType.Sampler,
        BindingResourceType.TextureView, BindingResourceType.BufferBinding,
        BindingResourceType.ExternalTexture]

/-- C2 at a concrete input: the record of sampler 7, resolved after the sampler
was destroyed, gives no value, and the sampler lookup of its identifier fails. -/
theorem convertFromBacking_none_iff_lookup_fails_witness :
    samplerRecord.type.isEnumerator ∧
      registryFromBackingContext.convertFromBacking samplerRecord
          (registryWithSampler.destroySampler ⟨7⟩)
        = .ok (none, registryWithSampler.destroySampler ⟨7⟩) ∧
      ∃ v t', registryFromBackingContext.convertFromBacking samplerRecord
          (registryWithSampler.destroySampler ⟨7⟩) = .ok (v, t') ∧
        (v = none ↔
          (samplerRecord.type = BindingResourceType.Sampler ∧
            (registryFromBackingContext.convertSamplerFromBacking samplerRecord.identifier
              (registryWithSampler.destroySampler ⟨7⟩)).1 = none) ∨
          (samplerRecord.type = BindingResourceType.TextureView ∧
            (registryFromBackingContext.convertTextureViewFromBacking samplerRecord.identifier
              (registryWithSampler.destroySampler ⟨7⟩)).1 = none) ∨
          (samplerRecord.type = BindingResourceType.BufferBinding ∧
            (registryFromBackingContext.convertBufferBindingFromBacking
              samplerRecord.bufferBinding (registryWithSampler.destroySampler ⟨7⟩)).1 = none) ∨
          (samplerRecord.type = BindingResourceType.ExternalTexture ∧
            (registryFromBackingContext.convertExternalTextureFromBacking
              samplerRecord.identifier (registryWithSampler.destroySampler ⟨7⟩)).1 = none)) :=
  ⟨by decide, rfl,
    convertFromBacking_none_iff_lookup_fails registryFromBackingContext samplerRecord
      (registryWithSampler.destroySampler ⟨7⟩) (by decide)⟩

/-- C3: outbound failure.  `convertToBacking` returns no value exactly when the
entry holds a buffer binding whose nested conversion fails; for a sampler, a
texture view and an external texture it returns a record. -/
theorem convertToBacking_none_iff_bufferBinding_fails {σ : Type}
    (ctx : ConvertToBackingContext σ) (e : WebCore.WebGPU.BindGroupEntry) (s : σ) :
    ((ctx.convertToBacking e s).1 = none ↔
      ∃ b, e.resource = .bufferBinding b ∧
        (ctx.convertBufferBindingToBacking b s).1 = none) ∧
    (∀ x, e.resource = .sampler x → ∃ r, (ctx.convertToBacking e s).1 = some r) ∧
    (∀ x, e.resource = .textureView x → ∃ r, (ctx.convertToBacking e s).1 = some r) ∧
    (∀ x, e.resource = .externalTexture x → ∃ r, (ctx.convertToBacking e s).1 = some r) := by
  obtain ⟨binding, resource⟩ := e
  cases resource with
  | sampler x => simp [ConvertToBackingContext.convertToBacking]
  | textureView x => simp [ConvertToBackingContext.convertToBacking]
  | bufferBinding b =>
    rcases hTo : ctx.convertBufferBindingToBacking b s with ⟨converted, s'⟩
    cases converted <;> simp [ConvertToBackingContext.convertToBacking, hTo]
  | externalTexture x => simp [ConvertToBackingContext.convertToBacking]

/-- C3 at concrete inputs: buffer 9 has no identifier in the empty registry, so
the conversion of `bufferEntry` there returns no value; on the registry that
holds the buffer it returns `bufferRecord`. -/
theorem convertToBacking_none_iff_bufferBinding_fails_witness :
    (registryToBackingContext.convertToBacking bufferEntry ObjectRegistry.empty).1 = none ∧
    (registryToBackingContext.convertToBacking bufferEntry registryWithBuffer).1
      = some bufferRecord ∧
    ∃ b, bufferEntry.resource = .bufferBinding b ∧
      (registryToBackingContext.convertBufferBindingToBacking b ObjectRegistry.empty).1 = none :=
  ⟨by decide, by decide,
    (convertToBacking_none_iff_bufferBinding_fails registryToBackingContext bufferEntry
      ObjectRegistry.empty).1.mp (by decide)⟩

/-- C4: buffer tag and identifier consistency.  When `convertToBacking` returns a
record for a buffer-binding entry, the record has the tag `BufferBinding`, its
`bufferBinding` is the result of the nested conversion, and its `identifier` is
`bufferBinding.buffer`. -/
theorem convertToBacking_bufferBinding_consistent {σ : Type}
    (ctx : ConvertToBackingContext σ) (e : WebCore.WebGPU.BindGroupEntry) (s : σ)
    (b : WebCore.WebGPU.BufferBinding) (r : BindGroupEntry)
    (hKind : e.resource = .bufferBinding b)
    (hSome : (ctx.convertToBacking e s).1 = some r) :
    r.type = BindingResourceType.BufferBinding ∧
      (ctx.convertBufferBindingToBacking b s).1 = some r.bufferBinding ∧
      r.identifier = r.bufferBinding.buffer := by
  obtain ⟨binding, resource⟩ := e
  simp only at hKind
  subst hKind
  rcases hTo : ctx.convertBufferBindingToBacking b s with ⟨converted, s'⟩
  cases converted with
  | none => simp [ConvertToBackingContext.convertToBacking, hTo] at hSome
  | some c =>
    simp [ConvertToBackingContext.convertToBacking, hTo] at hSome
    subst hSome
    simp

/-- C4 at a concrete input: the record of `bufferEntry` on the registry that
holds buffer 9. -/
theorem convertToBacking_bufferBinding_consistent_witness :
    (registryToBackingContext.convertToBacking bufferEntry registryWithBuffer).1
        = some bufferRecord ∧
      bufferRecord.type = BindingResourceType.BufferBinding ∧
      (registryToBackingContext.convertBufferBindingToBacking
          { buffer := ⟨9⟩, offset := 16, size := some 64 } registryWithBuffer).1
        = some bufferRecord.bufferBinding ∧
      bufferRecord.identifier = bufferRecord.bufferBinding.buffer :=
  ⟨by decide,
    convertToBacking_bufferBinding_consistent registryToBackingContext bufferEntry
      registryWithBuffer { buffer := ⟨9⟩, offset := 16, size := some 64 } bufferRecord rfl
      (by decide)⟩

/-- C5: outbound shape of the three single-identifier kinds.  For a sampler, a
texture view or an external texture, `convertToBacking` returns a record whose
tag is the kind of the resource, whose `identifier` is the identifier the
context gives for the object, and whose `bufferBinding.buffer` holds the same
identifier. -/
theorem convertToBacking_single_identifier_shape {σ : Type}
    (ctx : ConvertToBackingContext σ) (e : WebCore.WebGPU.BindGroupEntry) (s : σ) :
    (∀ x, e.resource = .sampler x →
      ∃ r, (ctx.convertToBacking e s).1 = some r ∧
        r.type = BindingResourceType.Sampler ∧
        r.identifier = (ctx.convertSamplerToBacking x s).1 ∧
        r.bufferBinding.buffer = (ctx.convertSamplerToBacking x s).1) ∧
    (∀ x, e.resource = .textureView x →
      ∃ r, (ctx.convertToBacking e s).1 = some r ∧
        r.type = BindingResourceType.TextureView ∧
        r.identifier = (ctx.convertTextureViewToBacking x s).1 ∧
        r.bufferBinding.buffer = (ctx.convertTextureViewToBacking x s).1) ∧
    (∀ x, e.resource = .externalTexture x →
      ∃ r, (ctx.convertToBacking e s).1 = some r ∧
        r.type = BindingResourceType.ExternalTexture ∧
        r.identifier = (ctx.convertExternalTextureToBacking x s).1 ∧
        r.bufferBinding.buffer = (ctx.convertExternalTextureToBacking x s).1) := by
  obtain ⟨binding, resource⟩ := e
  cases resource <;> simp [ConvertToBackingContext.convertToBacking]

/-- C5 at concrete inputs: sampler 7 in slot 3 on the empty registry gives the
tag `Sampler` and the identifier 1 in both `identifier` and
`bufferBinding.buffer`. -/
theorem convertToBacking_single_identifier_shape_witness :
    (registryToBackingContext.convertSamplerToBacking ⟨7⟩ ObjectRegistry.empty).1 = 1 ∧
      ∃ r, (registryToBackingContext.convertToBacking samplerEntry ObjectRegistry.empty).1
          = some r ∧
        r.type = BindingResourceType.Sampler ∧
        r.identifier
          = (registryToBackingContext.convertSamplerToBacking ⟨7⟩ ObjectRegistry.empty).1 ∧
        r.bufferBinding.buffer
          = (registryToBackingContext.convertSamplerToBacking ⟨7⟩ ObjectRegistry.empty).1 :=
  ⟨by decide,
    (convertToBacking_single_identifier_shape registryToBackingContext samplerEntry
      ObjectRegistry.empty).1 ⟨7⟩ rfl⟩

/-- A handle table whose first row holds the object gives that row's
identifier. -/
theorem identifierOf_cons_self {α : Type} [DecidableEq α] (identifier : WebGPUIdentifier)
    (object : α) (table : List (WebGPUIdentifier × α)) :
    identifierOf ((identifier, object) :: table) object = some identifier := by
  simp [identifierOf]

/-- Registering a sampler again, on the registry the first registration left,
returns the same identifier and that registry. -/
theorem registerSampler_registerSampler (registry : ObjectRegistry)
    (sampler : WebCore.WebGPU.Sampler) :
    (registry.registerSampler sampler).2.registerSampler sampler
      = registry.registerSampler sampler := by
  unfold ObjectRegistry.registerSampler
  cases h : identifierOf registry.samplers sampler <;> simp [h, identifierOf_cons_self]

/-- Registering a texture view again, on the registry the first registration
left, returns the same identifier and that registry. -/
theorem registerTextureView_registerTextureView (registry : ObjectRegistry)
    (textureView : WebCore.WebGPU.TextureView) :
    (registry.registerTextureView textureView).2.registerTextureView textureView
      = registry.registerTextureView textureView := by
  unfold ObjectRegistry.registerTextureView
  cases h : identifierOf registry.textureViews textureView <;>
    simp [h, identifierOf_cons_self]

/-- Registering an external texture again, on the registry the first
registration left, returns the same identifier and that registry. -/
theorem registerExternalTexture_registerExternalTexture (registry : ObjectRegistry)
    (externalTexture : WebCore.WebGPU.ExternalTexture) :
    (registry.registerExternalTexture externalTexture).2.registerExternalTexture
        externalTexture
      = registry.registerExternalTexture externalTexture := by
  unfold ObjectRegistry.registerExternalTexture
  cases h : identifierOf registry.externalTextures externalTexture <;>
    simp [h, identifierOf_cons_self]

/-- An entry conversion performs one per-object conversion and nothing else on
the registry: when each per-object conversion, repeated on the state it left,
returns the same result and state, so does the entry conversion. -/
theorem convertToBacking_repeat_of_registration_repeat {σ : Type}
    (ctx : ConvertToBackingContext σ)
    (hSampler : ∀ x s, ctx.convertSamplerToBacking x (ctx.convertSamplerToBacking x s).2
      = ctx.convertSamplerToBacking x s)
    (hTextureView : ∀ x s,
      ctx.convertTextureViewToBacking x (ctx.convertTextureViewToBacking x s).2
        = ctx.convertTextureViewToBacking x s)
    (hBuffer : ∀ x s, ctx.convertBufferToBacking x (ctx.convertBufferToBacking x s).2
      = ctx.convertBufferToBacking x s)
    (hExternalTexture : ∀ x s,
      ctx.convertExternalTextureToBacking x (ctx.convertExternalTextureToBacking x s).2
        = ctx.convertExternalTextureToBacking x s)
    (e : WebCore.WebGPU.BindGroupEntry) (s : σ) :
    ctx.convertToBacking e (ctx.convertToBacking e s).2 = ctx.convertToBacking e s := by
  obtain ⟨binding, resource⟩ := e
  cases resource with
  | sampler x =>
    have h := hSampler x s
    rcases hTo : ctx.convertSamplerToBacking x s with ⟨identifier, s'⟩
    rw [hTo] at h
    simp only at h
    simp [ConvertToBackingContext.convertToBacking, hTo, h]
  | textureView x =>
    have h := hTextureView x s
    rcases hTo : ctx.convertTextureViewToBacking x s with ⟨identifier, s'⟩
    rw [hTo] at h
    simp only at h
    simp [ConvertToBackingContext.convertToBacking, hTo, h]
  | bufferBinding b =>
    have h := hBuffer b.buffer s
    rcases hTo : ctx.convertBufferToBacking b.buffer s with ⟨assigned, s'⟩
    rw [hTo] at h
    simp only at h
    cases assigned <;>
      simp [ConvertToBackingContext.convertToBacking,
        ConvertToBackingContext.convertBufferBindingToBacking, hTo, h]
  | externalTexture x =>
    have h := hExternalTexture x s
    rcases hTo : ctx.convertExternalTextureToBacking x s with ⟨identifier, s'⟩
    rw [hTo] at h
    simp only at h
    simp [ConvertToBackingContext.convertToBacking, hTo, h]

/-- C6: idempotent identifier minting.  Over the registry, converting an entry
a second time, on the registry state the first conversion left, returns the same
result as the first conversion (the same record, hence the same identifier) and
leaves that registry state unchanged. -/
theorem convertToBacking_twice_same_record (e : WebCore.WebGPU.BindGroupEntry)
    (registry : ObjectRegistry) :
    ∃ first registry',
      registryToBackingContext.convertToBacking e registry = (first, registry') ∧
      registryToBackingContext.convertToBacking e registry' = (first, registry') :=
  ⟨(registryToBackingContext.convertToBacking e registry).1,
    (registryToBackingContext.convertToBacking e registry).2, rfl,
    convertToBacking_repeat_of_registration_repeat registryToBackingContext
      (fun x s => registerSampler_registerSampler s x)
      (fun x s => registerTextureView_registerTextureView s x)
      (fun _ _ => rfl)
      (fun x s => registerExternalTexture_registerExternalTexture s x) e registry⟩

/-- C6 at a concrete input: sampler 7 in slot 3 gets the fresh identifier 1 on
the empty registry, and the same record with the same identifier on the registry
the first conversion left, which the second conversion leaves as it is. -/
theorem convertToBacking_twice_same_record_witness :
    registryToBackingContext.convertToBacking samplerEntry ObjectRegistry.empty
        = (some samplerRecord, registryWithSampler) ∧
      registryToBackingContext.convertToBacking samplerEntry registryWithSampler
        = (some samplerRecord, registryWithSampler) ∧
      ∃ first registry',
        registryToBackingContext.convertToBacking samplerEntry ObjectRegistry.empty
          = (first, registry') ∧
        registryToBackingContext.convertToBacking samplerEntry registry' = (first, registry') :=
  ⟨by decide, by decide, convertToBacking_twice_same_record samplerEntry ObjectRegistry.empty⟩

/-- C7: no type confusion on resolution.  When `convertFromBacking` returns an
entry, the kind of its resource is the record's tag, and the resource holds
exactly what the lookup for that tag returned: the sampler, texture view or
external texture found under `identifier`, or the result of the nested
conversion of `bufferBinding`. -/
theorem convertFromBacking_some_resource_of_tag {ρ : Type}
    (ctx : ConvertFromBackingContext ρ) (r : BindGroupEntry) (t : ρ)
    (e : WebCore.WebGPU.BindGroupEntry) (t' : ρ)
    (hSome : ctx.convertFromBacking r t = .ok (some e, t')) :
    (r.type = BindingResourceType.Sampler ∧
      ∃ x, (ctx.convertSamplerFromBacking r.identifier t).1 = some x ∧
        e.resource = .sampler x) ∨
    (r.type = BindingResourceType.TextureView ∧
      ∃ x, (ctx.convertTextureViewFromBacking r.identifier t).1 = some x ∧
        e.resource = .textureView x) ∨
    (r.type = BindingResourceType.BufferBinding ∧
      ∃ b, (ctx.convertBufferBindingFromBacking r.bufferBinding t).1 = some b ∧
        e.resource = .bufferBinding b) ∨
    (r.type = BindingResourceType.ExternalTexture ∧
      ∃ x, (ctx.convertExternalTextureFromBacking r.identifier t).1 = some x ∧
        e.resource = .externalTexture x) := by
  unfold ConvertFromBackingContext.convertFromBacking at hSome
  split at hSome
  · next hTag =>
    left
    rcases hFrom : ctx.convertSamplerFromBacking r.identifier t with ⟨found, t''⟩
    rw [hFrom] at hSome
    cases found with
    | none => simp at hSome
    | some x =>
      simp at hSome
      exact ⟨hTag, x, rfl, by rw [← hSome.1]⟩
  · split at hSome
    · next hTag =>
      right; left
      rcases hFrom : ctx.convertTextureViewFromBacking r.identifier t with ⟨found, t''⟩
      rw [hFrom] at hSome
      cases found with
      | none => simp at hSome
      | some x =>
        simp at hSome
        exact ⟨hTag, x, rfl, by rw [← hSome.1]⟩
    · split at hSome
      · next hTag =>
        right; right; left
        rcases hFrom : ctx.convertBufferBindingFromBacking r.bufferBinding t with ⟨found, t''⟩
        rw [hFrom] at hSome
        cases found with
        | none => simp at hSome
        | some b =>
          simp at hSome
          exact ⟨hTag, b, rfl, by rw [← hSome.1]⟩
      · split at hSome
        · next hTag =>
          right; right; right
          rcases hFrom : ctx.convertExternalTextureFromBacking r.identifier t with ⟨found, t''⟩
          rw [hFrom] at hSome
          cases found with
          | none => simp at hSome
          | some x =>
            simp at hSome
            exact ⟨hTag, x, rfl, by rw [← hSome.1]⟩
        · simp at hSome

/-- C7 at a concrete input: `bufferRecord` resolves on the registry that holds
buffer 9 to the buffer binding of `bufferEntry`, offset 16 and size 64
included. -/
theorem convertFromBacking_some_resource_of_tag_witness :
    registryFromBackingContext.convertFromBacking bufferRecord registryWithBuffer
        = .ok (some bufferEntry, registryWithBuffer) ∧
      ((bufferRecord.type = BindingResourceType.Sampler ∧
        ∃ x, (registryFromBackingContext.convertSamplerFromBacking bufferRecord.identifier
            registryWithBuffer).1 = some x ∧ bufferEntry.resource = .sampler x) ∨
      (bufferRecord.type = BindingResourceType.TextureView ∧
        ∃ x, (registryFromBackingContext.convertTextureViewFromBacking bufferRecord.identifier
            registryWithBuffer).1 = some x ∧ bufferEntry.resource = .textureView x) ∨
      (bufferRecord.type = BindingResourceType.BufferBinding ∧
        ∃ b, (registryFromBackingContext.convertBufferBindingFromBacking
            bufferRecord.bufferBinding registryWithBuffer).1 = some b ∧
          bufferEntry.resource = .bufferBinding b) ∨
      (bufferRecord.type = BindingResourceType.ExternalTexture ∧
        ∃ x, (registryFromBackingContext.convertExternalTextureFromBacking
            bufferRecord.identifier registryWithBuffer).1 = some x ∧
          bufferEntry.resource = .externalTexture x)) :=
  ⟨rfl, convertFromBacking_some_resource_of_tag registryFromBackingContext bufferRecord
    registryWithBuffer bufferEntry registryWithBuffer rfl⟩

/-- C8: the binding slot index is copied in both directions.  A record that
`convertToBacking` returns has the entry's binding, and an entry that
`convertFromBacking` returns has the record's binding. -/
theorem binding_copied_both_directions {σ ρ : Type} (toCtx : ConvertToBackingContext σ)
    (fromCtx : ConvertFromBackingContext ρ) :
    (∀ (e : WebCore.WebGPU.BindGroupEntry) (s : σ) (r : BindGroupEntry) (s' : σ),
      toCtx.convertToBacking e s = (some r, s') → r.binding = e.binding) ∧
    (∀ (r : BindGroupEntry) (t : ρ) (e : WebCore.WebGPU.BindGroupEntry) (t' : ρ),
      fromCtx.convertFromBacking r t = .ok (some e, t') → e.binding = r.binding) := by
  constructor
  · intro e s r s' hTo
    obtain ⟨binding, resource⟩ := e
    cases resource with
    | sampler x =>
      simp [ConvertToBackingContext.convertToBacking] at hTo
      rw [← hTo.1]
    | textureView x =>
      simp [ConvertToBackingContext.convertToBacking] at hTo
      rw [← hTo.1]
    | bufferBinding b =>
      rcases hNested : toCtx.convertBufferBindingToBacking b s with ⟨converted, s''⟩
      cases converted with
      | none => simp [ConvertToBackingContext.convertToBacking, hNested] at hTo
      | some c =>
        simp [ConvertToBackingContext.convertToBacking, hNested] at hTo
        rw [← hTo.1]
    | externalTexture x =>
      simp [ConvertToBackingContext.convertToBacking] at hTo
      rw [← hTo.1]
  · intro r t e t' hFrom
    unfold ConvertFromBackingContext.convertFromBacking at hFrom
    split at hFrom
    · rcases hLookup : fromCtx.convertSamplerFromBacking r.identifier t with ⟨found, t''⟩
      rw [hLookup] at hFrom
      cases found with
      | none => simp at hFrom
      | some x =>
        simp at hFrom
        rw [← hFrom.1]
    · split at hFrom
      · rcases hLookup : fromCtx.convertTextureViewFromBacking r.identifier t with ⟨found, t''⟩
        rw [hLookup] at hFrom
        cases found with
        | none => simp at hFrom
        | some x =>
          simp at hFrom
          rw [← hFrom.1]
      · split at hFrom
        · rcases hLookup : fromCtx.convertBufferBindingFromBacking r.bufferBinding t with
            ⟨found, t''⟩
          rw [hLookup] at hFrom
          cases found with
          | none => simp at hFrom
          | some b =>
            simp at hFrom
            rw [← hFrom.1]
        · split at hFrom
          · rcases hLookup : fromCtx.convertExternalTextureFromBacking r.identifier t with
              ⟨found, t''⟩
            rw [hLookup] at hFrom
            cases found with
            | none => simp at hFrom
            | some x =>
              simp at hFrom
              rw [← hFrom.1]
          · simp at hFrom

/-- C8 at concrete inputs: slot 3 of `samplerEntry` reaches `samplerRecord`, and
slot 5 of `bufferRecord` reaches the resolved entry. -/
theorem binding_copied_both_directions_witness :
    registryToBackingContext.convertToBacking samplerEntry ObjectRegistry.empty
        = (some samplerRecord, registryWithSampler) ∧
      samplerRecord.binding = samplerEntry.binding ∧
      registryFromBackingContext.convertFromBacking bufferRecord registryWithBuffer
        = .ok (some bufferEntry, registryWithBuffer) ∧
      bufferEntry.binding = bufferRecord.binding :=
  ⟨by decide,
    (binding_copied_both_directions registryToBackingContext registryFromBackingContext).1
      samplerEntry ObjectRegistry.empty samplerRecord registryWithSampler (by decide),
    rfl,
    (binding_copied_both_directions registryToBackingContext registryFromBackingContext).2
      bufferRecord registryWithBuffer bufferEntry registryWithBuffer rfl⟩

/-- The nested buffer-binding resolution leaves the registry as the buffer lookup
leaves it. -/
theorem convertBufferBindingFromBacking_state {ρ : Type} (ctx : ConvertFromBackingContext ρ)
    (bufferBinding : BufferBinding) (t : ρ) :
    (ctx.convertBufferBindingFromBacking bufferBinding t).2
      = (ctx.convertBufferFromBacking bufferBinding.buffer t).2 := by
  unfold ConvertFromBackingContext.convertBufferBindingFromBacking
  rcases ctx.convertBufferFromBacking bufferBinding.buffer t with ⟨found, t'⟩
  cases found <;> rfl

/-- The lookups of the registry context are reads. -/
theorem registryFromBackingContext_lookupsAreReads :
    registryFromBackingContext.lookupsAreReads :=
  ⟨fun _ _ => rfl, fun _ _ => rfl, fun _ _ => rfl, fun _ _ => rfl⟩

/-- C9: resolution is a pure lookup.  With registry lookups that are reads,
whenever `convertFromBacking` returns, with an entry or with no value, the
registry state it leaves is the state it was called on, and calling it again on
the same record returns the same result. -/
theorem convertFromBacking_leaves_registry_unchanged {ρ : Type}
    (ctx : ConvertFromBackingContext ρ) (hReads : ctx.lookupsAreReads)
    (r : BindGroupEntry) (t : ρ) (v : Option WebCore.WebGPU.BindGroupEntry) (t' : ρ)
    (hReturn : ctx.convertFromBacking r t = .ok (v, t')) :
    t' = t ∧ ctx.convertFromBacking r t' = .ok (v, t') := by
  obtain ⟨hSampler, hTextureView, hBuffer, hExternalTexture⟩ := hReads
  have hState : t' = t := by
    unfold ConvertFromBackingContext.convertFromBacking at hReturn
    split at hReturn
    · have h := hSampler r.identifier t
      rcases hLookup : ctx.convertSamplerFromBacking r.identifier t with ⟨found, t''⟩
      rw [hLookup] at hReturn h
      cases found <;> simp at hReturn h <;> rw [← hReturn.2, h]
    · split at hReturn
      · have h := hTextureView r.identifier t
        rcases hLookup : ctx.convertTextureViewFromBacking r.identifier t with ⟨found, t''⟩
        rw [hLookup] at hReturn h
        cases found <;> simp at hReturn h <;> rw [← hReturn.2, h]
      · split at hReturn
        · have h := (convertBufferBindingFromBacking_state ctx r.bufferBinding t).trans
            (hBuffer r.bufferBinding.buffer t)
          rcases hLookup : ctx.convertBufferBindingFromBacking r.bufferBinding t with
            ⟨found, t''⟩
          rw [hLookup] at hReturn h
          cases found <;> simp at hReturn h <;> rw [← hReturn.2, h]
        · split at hReturn
          · have h := hExternalTexture r.identifier t
            rcases hLookup : ctx.convertExternalTextureFromBacking r.identifier t with
              ⟨found, t''⟩
            rw [hLookup] at hReturn h
            cases found <;> simp at hReturn h <;> rw [← hReturn.2, h]
          · simp at hReturn
  exact ⟨hState, by rw [hState]; rw [hState] at hReturn; exact hReturn⟩

/-- C9 at concrete inputs: resolving `samplerRecord` on the registry that holds
sampler 7 (an entry is returned) and on the registry where the sampler was
destroyed (no value is returned) leaves each registry as it was. -/
theorem convertFromBacking_leaves_registry_unchanged_witness :
    (registryFromBackingContext.lookupsAreReads ∧
      registryFromBackingContext.convertFromBacking samplerRecord registryWithSampler
        = .ok (some samplerEntry, registryWithSampler) ∧
      registryWithSampler = registryWithSampler ∧
      registryFromBackingContext.convertFromBacking samplerRecord registryWithSampler
        = .ok (some samplerEntry, registryWithSampler)) ∧
    (registryFromBackingContext.convertFromBacking samplerRecord
        (registryWithSampler.destroySampler ⟨7⟩)
        = .ok (none, registryWithSampler.destroySampler ⟨7⟩) ∧
      registryWithSampler.destroySampler ⟨7⟩ = registryWithSampler.destroySampler ⟨7⟩ ∧
      registryFromBackingContext.convertFromBacking samplerRecord
        (registryWithSampler.destroySampler ⟨7⟩)
        = .ok (none, registryWithSampler.destroySampler ⟨7⟩)) :=
  ⟨⟨registryFromBackingContext_lookupsAreReads, rfl,
      convertFromBacking_leaves_registry_unchanged registryFromBackingContext
        registryFromBackingContext_lookupsAreReads samplerRecord registryWithSampler
        (some samplerEntry) registryWithSampler rfl⟩,
    ⟨rfl,
      convertFromBacking_leaves_registry_unchanged registryFromBackingContext
        registryFromBackingContext_lookupsAreReads samplerRecord
        (registryWithSampler.destroySampler ⟨7⟩) none
        (registryWithSampler.destroySampler ⟨7⟩) rfl⟩⟩

/-- C10: unrecognized tags are the only fatal case.  `convertFromBacking` ends
in the release assertion exactly when the tag is none of the four enumerators;
for a record with one of the four tags it returns, with an entry or with no
value, whatever the lookups answer. -/
theorem convertFromBacking_fatal_iff_tag_unrecognized {ρ : Type}
    (ctx : ConvertFromBackingContext ρ) (r : BindGroupEntry) (t : ρ) :
    (ctx.convertFromBacking r t = .error Fatal.releaseAssertNotReached ↔
      ¬ r.type.isEnumerator) ∧
    (r.type.isEnumerator → ∃ v t', ctx.convertFromBacking r t = .ok (v, t')) := by
  obtain ⟨binding, bufferBinding, identifier, type⟩ := r
  by_cases h1 : type = BindingResourceType.Sampler
  · subst h1
    rcases hLookup : ctx.convertSamplerFromBacking identifier t with ⟨found, t''⟩
    cases found <;>
      simp [ConvertFromBackingContext.convertFromBacking, BindingResourceType.isEnumerator,
        hLookup]
  · by_cases h2 : type = BindingResourceType.TextureView
    · subst h2
      rcases hLookup : ctx.convertTextureViewFromBacking identifier t with ⟨found, t''⟩
      cases found <;>
        simp [ConvertFromBackingContext.convertFromBacking, BindingResourceType.isEnumerator,
          hLookup, BindingResourceType.Sampler, BindingResourceType.TextureView]
    · by_cases h3 : type = BindingResourceType.BufferBinding
      · subst h3
        rcases hLookup : ctx.convertBufferBindingFromBacking bufferBinding t with ⟨found, t''⟩
        cases found <;>
          simp [ConvertFromBackingContext.convertFromBacking, BindingResourceType.isEnumerator,
            hLookup, BindingResourceType.Sampler, BindingResourceType.TextureView,
            BindingResourceType.BufferBinding]
      · by_cases h4 : type = BindingResourceType.ExternalTexture
        · subst h4
          rcases hLookup : ctx.convertExternalTextureFromBacking identifier t with ⟨found, t''⟩
          cases found <;>
            simp [ConvertFromBackingContext.convertFromBacking,
              BindingResourceType.isEnumerator, hLookup, BindingResourceType.Sampler,
              BindingResourceType.TextureView, BindingResourceType.BufferBinding,
              BindingResourceType.ExternalTexture]
        · simp [ConvertFromBackingContext.convertFromBacking, BindingResourceType.isEnumerator,
            h1, h2, h3, h4]

/-- C10 at concrete inputs: the stale `samplerRecord` returns no value without
reaching the assertion, and the same record with the tag value 4 reaches it. -/
theorem convertFromBacking_fatal_iff_tag_unrecognized_witness :
    registryFromBackingContext.convertFromBacking samplerRecord ObjectRegistry.empty
        = .ok (none, ObjectRegistry.empty) ∧
      (∃ v t', registryFromBackingContext.convertFromBacking samplerRecord ObjectRegistry.empty
        = .ok (v, t')) ∧
      registryFromBackingContext.convertFromBacking
          { samplerRecord with type := ⟨4⟩ } registryWithSampler
        = .error Fatal.releaseAssertNotReached :=
  ⟨rfl,
    (convertFromBacking_fatal_iff_tag_unrecognized registryFromBackingContext samplerRecord
      ObjectRegistry.empty).2 (by decide),
    (convertFromBacking_fatal_iff_tag_unrecognized registryFromBackingContext
      { samplerRecord with type := ⟨4⟩ } registryWithSampler).1.mpr (by decide)⟩

/-- C11: the tag alone decides which field is read on resolution.  Two records
with the same binding and tag resolve to the same result when the tag is
`Sampler`, `TextureView` or `ExternalTexture` and they agree on `identifier`,
and when the tag is `BufferBinding` and they agree on `bufferBinding`; the other
field is not read. -/
theorem convertFromBacking_reads_field_of_tag {ρ : Type} (ctx : ConvertFromBackingContext ρ)
    (r₁ r₂ : BindGroupEntry) (t : ρ)
    (hBinding : r₁.binding = r₂.binding) (hTag : r₁.type = r₂.type)
    (hField :
      ((r₁.type = BindingResourceType.Sampler ∨ r₁.type = BindingResourceType.TextureView ∨
          r₁.type = BindingResourceType.ExternalTexture) ∧ r₁.identifier = r₂.identifier) ∨
      (r₁.type = BindingResourceType.BufferBinding ∧ r₁.bufferBinding = r₂.bufferBinding)) :
    ctx.convertFromBacking r₁ t = ctx.convertFromBacking r₂ t := by
  obtain ⟨binding₁, bufferBinding₁, identifier₁, type₁⟩ := r₁
  obtain ⟨binding₂, bufferBinding₂, identifier₂, type₂⟩ := r₂
  simp only at hBinding hTag hField
  subst hBinding hTag
  rcases hField with ⟨hKind, hIdentifier⟩ | ⟨hKind, hBufferBinding⟩
  · subst hIdentifier
    rcases hKind with h | h | h <;> subst h <;>
      simp [ConvertFromBackingContext.convertFromBacking, BindingResourceType.Sampler,
        BindingResourceType.TextureView, BindingResourceType.BufferBinding,
        BindingResourceType.ExternalTexture]
  · subst hBufferBinding hKind
    simp [ConvertFromBackingContext.convertFromBacking, BindingResourceType.Sampler,
      BindingResourceType.TextureView, BindingResourceType.BufferBinding]

/-- C11 at concrete inputs: two sampler records that differ in `bufferBinding`
only, and two buffer-binding records that differ in `identifier` only, resolve
alike. -/
theorem convertFromBacking_reads_field_of_tag_witness :
    (samplerRecord ≠ samplerRecordOtherBufferBinding ∧
      registryFromBackingContext.convertFromBacking samplerRecord registryWithSampler
        = registryFromBackingContext.convertFromBacking samplerRecordOtherBufferBinding
            registryWithSampler) ∧
    (bufferRecord ≠ bufferRecordOtherIdentifier ∧
      registryFromBackingContext.convertFromBacking bufferRecord registryWithBuffer
        = registryFromBackingContext.convertFromBacking bufferRecordOtherIdentifier
            registryWithBuffer) :=
  ⟨⟨by decide,
      convertFromBacking_reads_field_of_tag registryFromBackingContext samplerRecord
        samplerRecordOtherBufferBinding registryWithSampler rfl rfl
        (Or.inl ⟨Or.inl rfl, rfl⟩)⟩,
    ⟨by decide,
      convertFromBacking_reads_field_of_tag registryFromBackingContext bufferRecord
        bufferRecordOtherIdentifier registryWithBuffer rfl rfl (Or.inr ⟨rfl, rfl⟩)⟩⟩

/-- C12, as stated, fails: on the registry that holds sampler 7 under identifier
1 and sampler 8 under identifier 2, the records of the two sampler entries have
different `bufferBinding` fields, each holding the identifier of its sampler. -/
theorem convertToBacking_bufferBinding_differs_for_samplers :
    samplerEntry.resource = .sampler ⟨7⟩ ∧ secondSamplerEntry.resource = .sampler ⟨8⟩ ∧
    ∃ r₁ r₂,
      (registryToBackingContext.convertToBacking samplerEntry registryWithTwoSamplers).1
        = some r₁ ∧
      (registryToBackingContext.convertToBacking secondSamplerEntry registryWithTwoSamplers).1
        = some r₂ ∧
      r₁.bufferBinding = { buffer := 1 } ∧ r₂.bufferBinding = { buffer := 2 } ∧
      r₁.bufferBinding ≠ r₂.bufferBinding :=
  ⟨rfl, rfl, samplerRecord, secondSamplerRecord, by decide, by decide, rfl, rfl, by decide⟩

/-- C12, amended: for a sampler, texture-view or external-texture entry,
`convertToBacking` returns a record whose `bufferBinding` holds the identifier
that the context gives the referenced object in `buffer` and nothing else
(offset 0, no size), the same identifier as in `identifier`.  So the records of
two such entries have equal `bufferBinding` fields exactly when the context
gives their objects the same identifier. -/
theorem convertToBacking_bufferBinding_is_identifier {σ : Type}
    (ctx : ConvertToBackingContext σ) (e₁ e₂ : WebCore.WebGPU.BindGroupEntry) (s₁ s₂ : σ)
    (i₁ i₂ : WebGPUIdentifier)
    (hIdentifier₁ : ctx.identifierOfReferencedObject e₁ s₁ = some i₁)
    (hIdentifier₂ : ctx.identifierOfReferencedObject e₂ s₂ = some i₂) :
    ∃ r₁ r₂,
      (ctx.convertToBacking e₁ s₁).1 = some r₁ ∧
      (ctx.convertToBacking e₂ s₂).1 = some r₂ ∧
      r₁.bufferBinding = { buffer := i₁, offset := 0, size := none } ∧
      r₂.bufferBinding = { buffer := i₂, offset := 0, size := none } ∧
      r₁.identifier = i₁ ∧ r₂.identifier = i₂ ∧
      (r₁.bufferBinding = r₂.bufferBinding ↔ i₁ = i₂) := by
  have shape : ∀ (e : WebCore.WebGPU.BindGroupEntry) (s : σ) (i : WebGPUIdentifier),
      ctx.identifierOfReferencedObject e s = some i →
      ∃ r, (ctx.convertToBacking e s).1 = some r ∧
        r.bufferBinding = { buffer := i, offset := 0, size := none } ∧ r.identifier = i := by
    intro e s i hIdentifier
    obtain ⟨binding, resource⟩ := e
    cases resource with
    | sampler x =>
      simp only [ConvertToBackingContext.identifierOfReferencedObject, Option.some.injEq]
        at hIdentifier
      subst hIdentifier
      exact ⟨_, rfl, rfl, rfl⟩
    | textureView x =>
      simp only [ConvertToBackingContext.identifierOfReferencedObject, Option.some.injEq]
        at hIdentifier
      subst hIdentifier
      exact ⟨_, rfl, rfl, rfl⟩
    | bufferBinding b =>
      simp [ConvertToBackingContext.identifierOfReferencedObject] at hIdentifier
    | externalTexture x =>
      simp only [ConvertToBackingContext.identifierOfReferencedObject, Option.some.injEq]
        at hIdentifier
      subst hIdentifier
      exact ⟨_, rfl, rfl, rfl⟩
  obtain ⟨r₁, hSome₁, hBufferBinding₁, hRecord₁⟩ := shape e₁ s₁ i₁ hIdentifier₁
  obtain ⟨r₂, hSome₂, hBufferBinding₂, hRecord₂⟩ := shape e₂ s₂ i₂ hIdentifier₂
  refine ⟨r₁, r₂, hSome₁, hSome₂, hBufferBinding₁, hBufferBinding₂, hRecord₁, hRecord₂, ?_⟩
  rw [hBufferBinding₁, hBufferBinding₂]
  constructor
  · intro h
    exact congrArg BufferBinding.buffer h
  · intro h
    rw [h]

/-- C12, amended, at concrete inputs: on the registry that holds both, sampler 7
has identifier 1 and sampler 8 has identifier 2, and the `bufferBinding` fields
of their records hold 1 and 2; on the empty registry texture view 11 and
external texture 12 are each given identifier 1, and the `bufferBinding` fields
of their records are equal. -/
theorem convertToBacking_bufferBinding_is_identifier_witness :
    (registryToBackingContext.identifierOfReferencedObject samplerEntry
        registryWithTwoSamplers = some 1 ∧
      registryToBackingContext.identifierOfReferencedObject secondSamplerEntry
        registryWithTwoSamplers = some 2 ∧
      ∃ r₁ r₂,
        (registryToBackingContext.convertToBacking samplerEntry registryWithTwoSamplers).1
          = some r₁ ∧
        (registryToBackingContext.convertToBacking secondSamplerEntry
          registryWithTwoSamplers).1 = some r₂ ∧
        r₁.bufferBinding = { buffer := 1, offset := 0, size := none } ∧
        r₂.bufferBinding = { buffer := 2, offset := 0, size := none } ∧
        r₁.identifier = 1 ∧ r₂.identifier = 2 ∧
        (r₁.bufferBinding = r₂.bufferBinding ↔ (1 : WebGPUIdentifier) = 2)) ∧
    (registryToBackingContext.identifierOfReferencedObject textureViewEntry
        ObjectRegistry.empty = some 1 ∧
      registryToBackingContext.identifierOfReferencedObject externalTextureEntry
        ObjectRegistry.empty = some 1 ∧
      ∃ r₁ r₂,
        (registryToBackingContext.convertToBacking textureViewEntry ObjectRegistry.empty).1
          = some r₁ ∧
        (registryToBackingContext.convertToBacking externalTextureEntry
          ObjectRegistry.empty).1 = some r₂ ∧
        r₁.bufferBinding = { buffer := 1, offset := 0, size := none } ∧
        r₂.bufferBinding = { buffer := 1, offset := 0, size := none } ∧
        r₁.identifier = 1 ∧ r₂.identifier = 1 ∧
        (r₁.bufferBinding = r₂.bufferBinding ↔ (1 : WebGPUIdentifier) = 1)) :=
  ⟨⟨by decide, by decide,
      convertToBacking_bufferBinding_is_identifier registryToBackingContext samplerEntry
        secondSamplerEntry registryWithTwoSamplers registryWithTwoSamplers 1 2
        (by decide) (by decide)⟩,
    ⟨by decide, by decide,
      convertToBacking_bufferBinding_is_identifier registryToBackingContext textureViewEntry
        externalTextureEntry ObjectRegistry.empty ObjectRegistry.empty 1 1
        (by decide) (by decide)⟩⟩

/-- On the registry that holds sampler 7 only, the registries agree on resolved
objects. -/
theorem registriesConsistent_registryWithSampler :
    registriesConsistent registryToBackingContext registryFromBackingContext
      registryWithSampler registryWithSampler := by
  refine ⟨?_, ?_, ?_, ?_⟩
  · intro identifier sampler h
    simp [registryFromBackingContext, registryWithSampler, ObjectRegistry.registerSampler,
      ObjectRegistry.empty, identifierOf, lookup] at h
    obtain ⟨rfl, rfl⟩ := h
    rfl
  · intro identifier textureView h
    simp [registryFromBackingContext, registryWithSampler, ObjectRegistry.registerSampler,
      ObjectRegistry.empty, identifierOf, lookup] at h
  · intro identifier buffer h
    simp [registryFromBackingContext, registryWithSampler, ObjectRegistry.registerSampler,
      ObjectRegistry.empty, identifierOf, lookup] at h
  · intro identifier externalTexture h
    simp [registryFromBackingContext, registryWithSampler, ObjectRegistry.registerSampler,
      ObjectRegistry.empty, identifierOf, lookup] at h

/-- C13, as stated, fails: with consistent registries, a sampler record whose
`bufferBinding` holds other values resolves to the entry of sampler 7, and
`convertToBacking` of that entry returns `samplerRecord`, a different record
that resolves to the same entry. -/
theorem convertToBacking_convertFromBacking_not_identity :
    registriesConsistent registryToBackingContext registryFromBackingContext
      registryWithSampler registryWithSampler ∧
    registryFromBackingContext.convertFromBacking samplerRecordOtherBufferBinding
        registryWithSampler = .ok (some samplerEntry, registryWithSampler) ∧
    (registryToBackingContext.convertToBacking samplerEntry registryWithSampler).1
      = some samplerRecord ∧
    samplerRecord ≠ samplerRecordOtherBufferBinding ∧
    registryFromBackingContext.convertFromBacking samplerRecord registryWithSampler
      = .ok (some samplerEntry, registryWithSampler) :=
  ⟨registriesConsistent_registryWithSampler, rfl, by decide, by decide, rfl⟩

/-- C13, amended: with consistent registries, for a record `r` in the form
`convertToBacking` emits that `convertFromBacking` resolves to an entry `e`,
`convertToBacking` of `e` returns `r` itself; hence two different records of
that form never resolve to the same entry. -/
theorem convertToBacking_convertFromBacking_of_emitted_form {σ ρ : Type}
    (toCtx : ConvertToBackingContext σ) (fromCtx : ConvertFromBackingContext ρ)
    (r : BindGroupEntry) (s : σ) (t : ρ) (e : WebCore.WebGPU.BindGroupEntry) (t' : ρ)
    (hConsistent : registriesConsistent toCtx fromCtx s t)
    (hForm : r.isEmittedForm)
    (hSome : fromCtx.convertFromBacking r t = .ok (some e, t')) :
    (toCtx.convertToBacking e s).1 = some r ∧
    ∀ r₂ t₂, r₂.isEmittedForm → fromCtx.convertFromBacking r₂ t = .ok (some e, t₂) →
      r₂ = r := by
  have back : ∀ (r : BindGroupEntry) (t' : ρ), r.isEmittedForm →
      fromCtx.convertFromBacking r t = .ok (some e, t') →
      (toCtx.convertToBacking e s).1 = some r := by
    intro r t' hForm hSome
    obtain ⟨hSampler, hTextureView, hBuffer, hExternalTexture⟩ := hConsistent
    obtain ⟨binding, bufferBinding, identifier, type⟩ := r
    unfold ConvertFromBackingContext.convertFromBacking at hSome
    unfold BindGroupEntry.isEmittedForm at hForm
    simp only at hSome hForm
    split at hSome
    · next hTag =>
      subst hTag
      have h := hSampler identifier
      rcases hLookup : fromCtx.convertSamplerFromBacking identifier t with ⟨found, t''⟩
      rw [hLookup] at hSome h
      cases found with
      | none => simp at hSome
      | some x =>
        simp at hSome
        have h := h x rfl
        rcases hTo : toCtx.convertSamplerToBacking x s with ⟨assigned, s'⟩
        rw [hTo] at h
        simp only at h
        subst h
        simp [BindingResourceType.Sampler, BindingResourceType.BufferBinding] at hForm
        rw [← hSome.1]
        simp [ConvertToBackingContext.convertToBacking, hTo, hForm,
          BindingResourceType.Sampler]
    · split at hSome
      · next hTag =>
        subst hTag
        have h := hTextureView identifier
        rcases hLookup : fromCtx.convertTextureViewFromBacking identifier t with ⟨found, t''⟩
        rw [hLookup] at hSome h
        cases found with
        | none => simp at hSome
        | some x =>
          simp at hSome
          have h := h x rfl
          rcases hTo : toCtx.convertTextureViewToBacking x s with ⟨assigned, s'⟩
          rw [hTo] at h
          simp only at h
          subst h
          simp [BindingResourceType.TextureView, BindingResourceType.BufferBinding] at hForm
          rw [← hSome.1]
          simp [ConvertToBackingContext.convertToBacking, hTo, hForm,
            BindingResourceType.TextureView]
      · split at hSome
        · next hTag =>
          subst hTag
          have h := hBuffer bufferBinding.buffer
          unfold ConvertFromBackingContext.convertBufferBindingFromBacking at hSome
          rcases hLookup : fromCtx.convertBufferFromBacking bufferBinding.buffer t with
            ⟨found, t''⟩
          rw [hLookup] at hSome h
          cases found with
          | none => simp at hSome
          | some x =>
            simp at hSome
            have h := h x rfl
            rcases hTo : toCtx.convertBufferToBacking x s with ⟨assigned, s'⟩
            rw [hTo] at h
            simp only at h
            subst h
            simp at hForm
            rw [← hSome.1]
            simp [ConvertToBackingContext.convertToBacking,
              ConvertToBackingContext.convertBufferBindingToBacking, hTo, hForm]
        · split at hSome
          · next h1 h2 h3 hTag =>
            subst hTag
            have h := hExternalTexture identifier
            rcases hLookup : fromCtx.convertExternalTextureFromBacking identifier t with
              ⟨found, t''⟩
            rw [hLookup] at hSome h
            cases found with
            | none => simp at hSome
            | some x =>
              simp at hSome
              have h := h x rfl
              rcases hTo : toCtx.convertExternalTextureToBacking x s with ⟨assigned, s'⟩
              rw [hTo] at h
              simp only at h
              subst h
              simp [BindingResourceType.ExternalTexture, BindingResourceType.BufferBinding]
                at hForm
              rw [← hSome.1]
              simp [ConvertToBackingContext.convertToBacking, hTo, hForm,
                BindingResourceType.ExternalTexture]
          · simp at hSome
  refine ⟨back r t' hForm hSome, ?_⟩
  intro r₂ t₂ hForm₂ hSome₂
  have h₁ := back r t' hForm hSome
  have h₂ := back r₂ t₂ hForm₂ hSome₂
  rw [h₁] at h₂
  exact (Option.some.inj h₂).symm

/-- C13, amended, at a concrete input: `samplerRecord` is in the emitted form
and resolves to `samplerEntry`, whose conversion returns `samplerRecord`. -/
theorem convertToBacking_convertFromBacking_of_emitted_form_witness :
    samplerRecord.isEmittedForm ∧
    registryFromBackingContext.convertFromBacking samplerRecord registryWithSampler
      = .ok (some samplerEntry, registryWithSampler) ∧
    (registryToBackingContext.convertToBacking samplerEntry registryWithSampler).1
      = some samplerRecord ∧
    ∀ r₂ t₂, r₂.isEmittedForm →
      registryFromBackingContext.convertFromBacking r₂ registryWithSampler
        = .ok (some samplerEntry, t₂) → r₂ = samplerRecord :=
  ⟨by decide, rfl,
    convertToBacking_convertFromBacking_of_emitted_form registryToBackingContext
      registryFromBackingContext samplerRecord registryWithSampler registryWithSampler
      samplerEntry registryWithSampler registriesConsistent_registryWithSampler (by decide)
      rfl⟩

end WebKit.WebGPU

namespace WebKit

/-- Deleting the rows of a key leaves the value of any other key. -/
theorem valueOfKey_withoutKey_of_ne (rows : List (String × Inspector.InspectorTarget))
    (key wanted : String) (hNe : wanted ≠ key) :
    valueOfKey (withoutKey rows key) wanted = valueOfKey rows wanted := by
  induction rows with
  | nil => rfl
  | cons row rest ih =>
    obtain ⟨rowKey, value⟩ := row
    by_cases hKey : rowKey = key
    · subst hKey
      have hWanted : ¬ rowKey = wanted := fun h => hNe h.symm
      simp [withoutKey, valueOfKey, hWanted, ih]
    · simp [withoutKey, valueOfKey, hKey, ih]

/-- Rows that hold no value for a key are left as they are by deleting the rows
of that key. -/
theorem withoutKey_eq_self_of_valueOfKey_none
    (rows : List (String × Inspector.InspectorTarget)) (key : String)
    (hNone : valueOfKey rows key = none) : withoutKey rows key = rows := by
  induction rows with
  | nil => rfl
  | cons row rest ih =>
    obtain ⟨rowKey, value⟩ := row
    by_cases hKey : rowKey = key
    · simp [valueOfKey, hKey] at hNone
    · simp only [valueOfKey, hKey, if_false] at hNone
      simp [withoutKey, hKey, ih hNone]

/-- `get` after `set` of the same key gives the value that was set. -/
theorem TargetMap.get_set_self (map : TargetMap) (key : String)
    (value : Inspector.InspectorTarget) : (map.set key value).get key = some value := by
  simp [TargetMap.set, TargetMap.get, valueOfKey]

/-- `get` after `set` of another key gives what it gave before. -/
theorem TargetMap.get_set_of_ne (map : TargetMap) (key wanted : String)
    (value : Inspector.InspectorTarget) (hNe : wanted ≠ key) :
    (map.set key value).get wanted = map.get wanted := by
  have hKey : ¬ key = wanted := fun h => hNe h.symm
  simp [TargetMap.set, TargetMap.get, TargetMap.remove, valueOfKey, hKey,
    valueOfKey_withoutKey_of_ne map.entries key wanted hNe]

/-- `get` after `remove` of another key gives what it gave before. -/
theorem TargetMap.get_remove_of_ne (map : TargetMap) (key wanted : String)
    (hNe : wanted ≠ key) : (map.remove key).get wanted = map.get wanted := by
  simp [TargetMap.get, TargetMap.remove,
    valueOfKey_withoutKey_of_ne map.entries key wanted hNe]

/-- `remove` after `set` of a key the map did not hold gives the map back. -/
theorem TargetMap.remove_set_of_get_none (map : TargetMap) (key : String)
    (value : Inspector.InspectorTarget) (hNone : map.get key = none) :
    (map.set key value).remove key = map := by
  obtain ⟨rows⟩ := map
  have h := withoutKey_eq_self_of_valueOfKey_none rows key hNone
  simp [TargetMap.set, TargetMap.remove, withoutKey, h]

/-- C14: `connectInspector`, `disconnectInspector` and
`sendMessageToTargetBackend` with a target identifier that is not a key of the
target map leave the controller as it is: no target is called and the map is
unchanged.  With a registered identifier each makes its one call on the target
stored under the identifier and changes nothing else. -/
theorem inspector_calls_forward_to_stored_target
    (controller : WebPageInspectorTargetController) (targetId : String)
    (connectionType : Inspector.ConnectionType) (message : String) :
    (controller.m_targets.get targetId = none →
      controller.connectInspector targetId connectionType = controller ∧
      controller.disconnectInspector targetId = controller ∧
      controller.sendMessageToTargetBackend targetId message = controller) ∧
    (∀ target, controller.m_targets.get targetId = some target →
      controller.connectInspector targetId connectionType
        = { controller with
            targetCalls := controller.targetCalls ++
              [Inspector.TargetCall.connect target connectionType] } ∧
      controller.disconnectInspector targetId
        = { controller with
            targetCalls := controller.targetCalls ++
              [Inspector.TargetCall.disconnect target] } ∧
      controller.sendMessageToTargetBackend targetId message
        = { controller with
            targetCalls := controller.targetCalls ++
              [Inspector.TargetCall.sendMessageToTargetBackend target message] }) := by
  constructor
  · intro hNone
    simp [WebPageInspectorTargetController.connectInspector,
      WebPageInspectorTargetController.disconnectInspector,
      WebPageInspectorTargetController.sendMessageToTargetBackend, hNone]
  · intro target hSome
    simp [WebPageInspectorTargetController.connectInspector,
      WebPageInspectorTargetController.disconnectInspector,
      WebPageInspectorTargetController.sendMessageToTargetBackend, hSome]

/-- C14 at concrete inputs: on the controller of `pageTarget`, the identifier
"worker-2" is not registered and the three calls change nothing; the identifier
"page-1" is registered and the three calls reach `pageTarget`. -/
theorem inspector_calls_forward_to_stored_target_witness :
    (pageController.m_targets.get "worker-2" = none ∧
      pageController.connectInspector "worker-2" ⟨0⟩ = pageController ∧
      pageController.disconnectInspector "worker-2" = pageController ∧
      pageController.sendMessageToTargetBackend "worker-2" "ping" = pageController) ∧
    (pageController.m_targets.get "page-1" = some pageTarget ∧
      pageController.connectInspector "page-1" ⟨0⟩
        = { pageController with
            targetCalls := pageController.targetCalls ++
              [Inspector.TargetCall.connect pageTarget ⟨0⟩] } ∧
      pageController.disconnectInspector "page-1"
        = { pageController with
            targetCalls := pageController.targetCalls ++
              [Inspector.TargetCall.disconnect pageTarget] } ∧
      pageController.sendMessageToTargetBackend "page-1" "ping"
        = { pageController with
            targetCalls := pageController.targetCalls ++
              [Inspector.TargetCall.sendMessageToTargetBackend pageTarget "ping"] }) :=
  ⟨⟨by decide,
      (inspector_calls_forward_to_stored_target pageController "worker-2" ⟨0⟩ "ping").1
        (by decide)⟩,
    ⟨by decide,
      (inspector_calls_forward_to_stored_target pageController "page-1" ⟨0⟩ "ping").2
        pageTarget (by decide)⟩⟩

/-- A target stored under an identifier stays stored under it through calls of
`addTarget` and `removeTarget` with targets of other identifiers. -/
theorem get_performAll_of_ne (operations : List TargetOperation)
    (controller : WebPageInspectorTargetController) (key : String)
    (stored : Inspector.InspectorTarget)
    (hOther : ∀ operation ∈ operations, operation.target.identifier ≠ key)
    (hStored : controller.m_targets.get key = some stored) :
    (controller.performAll operations).m_targets.get key = some stored ∧
    (controller.performAll operations).m_pageTarget = controller.m_pageTarget := by
  induction operations generalizing controller with
  | nil => exact ⟨hStored, rfl⟩
  | cons operation rest ih =>
    have hHead : operation.target.identifier ≠ key := hOther operation (List.mem_cons_self _ _)
    have hRest : ∀ operation ∈ rest, operation.target.identifier ≠ key :=
      fun o ho => hOther o (List.mem_cons_of_mem _ ho)
    have hStep : (controller.perform operation).m_targets.get key = some stored ∧
        (controller.perform operation).m_pageTarget = controller.m_pageTarget := by
      cases operation with
      | addTarget target =>
        refine ⟨?_, rfl⟩
        simp only [WebPageInspectorTargetController.perform,
          WebPageInspectorTargetController.addTarget]
        have hNe : key ≠ target.identifier := Ne.symm hHead
        rw [TargetMap.get_set_of_ne _ _ _ _ hNe]
        exact hStored
      | removeTarget target =>
        refine ⟨?_, rfl⟩
        simp only [WebPageInspectorTargetController.perform,
          WebPageInspectorTargetController.removeTarget]
        have hNe : key ≠ target.identifier := Ne.symm hHead
        rw [TargetMap.get_remove_of_ne _ _ _ hNe]
        exact hStored
    have h := ih (controller.perform operation) hRest hStep.1
    exact ⟨h.1, h.2.trans hStep.2⟩

/-- C15: the page target is always registered.  After construction the target
map holds exactly one entry, the page target under its identifier; after any
sequence of `addTarget` and `removeTarget` calls with targets whose identifier
differs from the page target's, the map still holds the page target under its
identifier. -/
theorem pageTarget_always_registered (pageTarget : Inspector.InspectorTarget)
    (operations : List TargetOperation)
    (hOther : ∀ operation ∈ operations,
      operation.target.identifier ≠ pageTarget.identifier) :
    (WebPageInspectorTargetController.create pageTarget).m_targets
      = ⟨[(pageTarget.identifier, pageTarget)]⟩ ∧
    ((WebPageInspectorTargetController.create pageTarget).performAll operations).m_pageTarget
      = pageTarget ∧
    ((WebPageInspectorTargetController.create pageTarget).performAll
        operations).m_targets.get pageTarget.identifier = some pageTarget := by
  have h := get_performAll_of_ne operations (WebPageInspectorTargetController.create pageTarget)
    pageTarget.identifier pageTarget hOther (TargetMap.get_set_self _ _ _)
  exact ⟨rfl, h.2, h.1⟩

/-- C15 at a concrete input: the worker target is added, removed and added
again on the controller of `pageTarget`. -/
theorem pageTarget_always_registered_witness :
    (∀ operation ∈ [TargetOperation.addTarget workerTarget,
        TargetOperation.removeTarget workerTarget, TargetOperation.addTarget workerTarget],
      operation.target.identifier ≠ pageTarget.identifier) ∧
    (WebPageInspectorTargetController.create pageTarget).m_targets
      = ⟨[(pageTarget.identifier, pageTarget)]⟩ ∧
    ((WebPageInspectorTargetController.create pageTarget).performAll
        [TargetOperation.addTarget workerTarget, TargetOperation.removeTarget workerTarget,
          TargetOperation.addTarget workerTarget]).m_pageTarget = pageTarget ∧
    ((WebPageInspectorTargetController.create pageTarget).performAll
        [TargetOperation.addTarget workerTarget, TargetOperation.removeTarget workerTarget,
          TargetOperation.addTarget workerTarget]).m_targets.get pageTarget.identifier
      = some pageTarget :=
  ⟨by decide,
    pageTarget_always_registered pageTarget
      [TargetOperation.addTarget workerTarget, TargetOperation.removeTarget workerTarget,
        TargetOperation.addTarget workerTarget] (by decide)⟩

/-- C16: `addTarget` and `removeTarget` are inverse on the target map and each
sends one notification.  For a target whose identifier is not yet a key,
`addTarget` stores the target under its identifier, leaves every other key as it
was and sends one `CreateInspectorTarget` with the identifier and type; a
following `removeTarget` of the target sends one `DestroyInspectorTarget` with
the identifier and gives back the map from before the `addTarget`. -/
theorem removeTarget_addTarget_restores_map (controller : WebPageInspectorTargetController)
    (target : Inspector.InspectorTarget)
    (hNew : controller.m_targets.get target.identifier = none) :
    (controller.addTarget target).m_targets.get target.identifier = some target ∧
    (∀ key, key ≠ target.identifier →
      (controller.addTarget target).m_targets.get key = controller.m_targets.get key) ∧
    (controller.addTarget target).sentMessages
      = controller.sentMessages ++
          [WebPageProxyMessage.CreateInspectorTarget target.identifier target.type] ∧
    ((controller.addTarget target).removeTarget target).sentMessages
      = (controller.addTarget target).sentMessages ++
          [WebPageProxyMessage.DestroyInspectorTarget target.identifier] ∧
    ((controller.addTarget target).removeTarget target).m_targets = controller.m_targets := by
  refine ⟨?_, ?_, rfl, rfl, ?_⟩
  · exact TargetMap.get_set_self _ _ _
  · intro key hNe
    exact TargetMap.get_set_of_ne _ _ _ _ hNe
  · exact TargetMap.remove_set_of_get_none _ _ _ hNew

/-- C16 at a concrete input: the worker target is added to the controller of
`pageTarget` and removed again. -/
theorem removeTarget_addTarget_restores_map_witness :
    pageController.m_targets.get workerTarget.identifier = none ∧
    (pageController.addTarget workerTarget).sentMessages
      = [WebPageProxyMessage.CreateInspectorTarget "worker-2" ⟨1⟩] ∧
    ((pageController.addTarget workerTarget).removeTarget workerTarget).sentMessages
      = [WebPageProxyMessage.CreateInspectorTarget "worker-2" ⟨1⟩,
          WebPageProxyMessage.DestroyInspectorTarget "worker-2"] ∧
    (pageController.addTarget workerTarget).m_targets.get workerTarget.identifier
      = some workerTarget ∧
    (∀ key, key ≠ workerTarget.identifier →
      (pageController.addTarget workerTarget).m_targets.get key
        = pageController.m_targets.get key) ∧
    (pageController.addTarget workerTarget).sentMessages
      = pageController.sentMessages ++
          [WebPageProxyMessage.CreateInspectorTarget workerTarget.identifier
            workerTarget.type] ∧
    ((pageController.addTarget workerTarget).removeTarget workerTarget).sentMessages
      = (pageController.addTarget workerTarget).sentMessages ++
          [WebPageProxyMessage.DestroyInspectorTarget workerTarget.identifier] ∧
    ((pageController.addTarget workerTarget).removeTarget workerTarget).m_targets
      = pageController.m_targets :=
  ⟨by decide, by decide, by decide,
    removeTarget_addTarget_restores_map pageController workerTarget (by decide)⟩

end WebKit
